import Mathlib

/-!
Verification of the GCP script-builder repository.

The developments below shallowly embed the string-processing core of the
repository: the identifier sanitizer and script generator of the
`ScriptBuilder` class (src/unnamed/part_000), the advanced-selector
synthesizer `updateSelectorPreview` (src/public/app.js), the configuration
gather/restore pair (src/public/app.js and src/unnamed/part_001), the
history sorting helper (src/public/history.js) and the local-storage
helper (src/unnamed/part_001).

JavaScript strings are modelled as Lean `String`s; the handful of regular
expressions and string methods the source uses are re-implemented by
structural recursion over `String.data` so that every definition reduces
inside the kernel.
-/

/-- Split a character list at every occurrence of `sep`, mirroring
JavaScript `String.prototype.split` with a one-character separator:
`"a=b=c".split('=') = ["a","b","c"]` and `"".split('=') = [""]`. -/
def chSplit (sep : Char) : List Char → List (List Char)
  | [] => [[]]
  | c :: rest =>
    let r := chSplit sep rest
    if c = sep then [] :: r
    else
      match r with
      | [] => [[c]]
      | h :: t => (c :: h) :: t

/-- JavaScript `s.split(sep)` for a one-character separator. -/
def jsSplit (sep : Char) (s : String) : List String :=
  (chSplit sep s.data).map String.mk

/-- Join with a one-character separator, mirroring
JavaScript `Array.prototype.join`. -/
def chJoin (sep : Char) : List (List Char) → List Char
  | [] => []
  | [x] => x
  | x :: y :: rest => x ++ sep :: chJoin sep (y :: rest)

/-- JavaScript `arr.join(sep)` for a one-character separator. -/
def jsJoin (sep : Char) (l : List String) : String :=
  String.mk (chJoin sep (l.map String.data))

/-- ASCII whitespace test used to model JavaScript `String.prototype.trim`
on the ASCII inputs this application handles. -/
def jsWhite (c : Char) : Bool :=
  c = ' ' ∨ c = '\t' ∨ c = '\n' ∨ c = '\r'

/-- JavaScript `s.trim()` (restricted to ASCII whitespace). -/
def jsTrim (s : String) : String :=
  String.mk (((s.data.dropWhile jsWhite).reverse.dropWhile jsWhite).reverse)

/-- Character membership in a string, used to phrase substring facts. -/
def chContains (s : String) (c : Char) : Bool :=
  s.data.contains c

/-- Infix test on character lists: `needle` occurs contiguously in
`haystack`. Used to state that a generated fragment mentions a name. -/
def chInfix (needle haystack : List Char) : Bool :=
  decide (needle <:+: haystack)

/-- String-level substring test backed by `chInfix`. -/
def strContainsSub (haystack needle : String) : Bool :=
  chInfix needle.data haystack.data

/-- JavaScript truthiness of a string: the empty string is falsy. -/
def jsTruthy (s : String) : Bool :=
  s ≠ ""

/-- ASCII lowercase conversion of a string, modelling
`String.prototype.toLowerCase` on the ASCII values this UI produces. -/
def jsToLower (s : String) : String :=
  String.mk (s.data.map Char.toLower)

namespace ScriptBuilder

/-! ### Identifier sanitization (src/unnamed/part_000, `functionNameFromScriptName`)

The source applies four regular-expression rewrites in order and falls back
to `'mainFunction'` on an empty result:

  `.replace(/[^a-zA-Z0-9]/g, '_').replace(/^[0-9]/, '_$&')`
  `.replace(/_+/g, '_').replace(/^_|_$/g, '') || 'mainFunction'`
-/

/-- Step 1: `replace(/[^a-zA-Z0-9]/g, '_')` — every character outside
`[a-zA-Z0-9]` becomes an underscore. -/
def sanitizeChars (l : List Char) : List Char :=
  l.map (fun c => if c.isAlphanum then c else '_')

/-- Step 2: `replace(/^[0-9]/, '_$&')` — a leading digit is prefixed with
an underscore. -/
def escapeLeadingDigit : List Char → List Char
  | [] => []
  | c :: rest => if c.isDigit then '_' :: c :: rest else c :: rest

/-- Step 3: `replace(/_+/g, '_')` — runs of underscores collapse to one. -/
def collapseUnderscores : List Char → List Char
  | [] => []
  | '_' :: '_' :: rest => collapseUnderscores ('_' :: rest)
  | c :: rest => c :: collapseUnderscores rest

/-- Step 4: `replace(/^_|_$/g, '')` — one leading and one trailing
underscore are removed (after step 3 no longer runs exist, so the regex
removes at most one of each). -/
def trimUnderscores (l : List Char) : List Char :=
  let l1 := match l with
    | '_' :: rest => rest
    | other => other
  match l1.reverse with
  | '_' :: rest => rest.reverse
  | _ => l1

/-- The `functionNameFromScriptName` method of `ScriptBuilder`
(src/unnamed/part_000 lines 920-926). -/
def functionNameFromScriptName (scriptName : String) : String :=
  let result := String.mk
    (trimUnderscores (collapseUnderscores (escapeLeadingDigit (sanitizeChars scriptName.data))))
  if jsTruthy result then result else "mainFunction"

end ScriptBuilder

namespace ScriptBuilder

/-! ### Feature templates (src/unnamed/part_000, `loadTemplates`)

Each nullary template of the `loadTemplates` catalog is embedded as the
exact string its arrow function returns (template literals transcribed
verbatim, line by line). -/

/-- The `templates.domReady` fragment of src/unnamed/part_000, verbatim. -/
def templates.domReady : String :=
  String.intercalate "\n" [
    "",
    "    // DOM ready state handling",
    "    if (document.readyState === 'loading') \x7b",
    "        document.addEventListener('DOMContentLoaded', mainFunction);",
    "    \x7d else \x7b",
    "        mainFunction();",
    "    \x7d"
  ]

/-- The `templates.spaNavigation` fragment of src/unnamed/part_000, verbatim. -/
def templates.spaNavigation : String :=
  String.intercalate "\n" [
    "",
    "    // SPA navigation handling",
    "    let navigationObserver = null;",
    "    ",
    "    function handleNavigation() \x7b",
    "        // Clean up previous instance",
    "        if (navigationObserver) \x7b",
    "            navigationObserver.disconnect();",
    "        \x7d",
    "        ",
    "        // Re-run main function after navigation",
    "        setTimeout(() => \x7b",
    "            mainFunction();",
    "        \x7d, 500);",
    "    \x7d",
    "    ",
    "    // Listen for navigation events",
    "    window.addEventListener('popstate', handleNavigation);",
    "    ",
    "    // Override pushState for SPA detection",
    "    const originalPushState = history.pushState;",
    "    history.pushState = function() \x7b",
    "        originalPushState.apply(history, arguments);",
    "        handleNavigation();",
    "    \x7d;",
    "    ",
    "    const originalReplaceState = history.replaceState;",
    "    history.replaceState = function() \x7b",
    "        originalReplaceState.apply(history, arguments);",
    "        handleNavigation();",
    "    \x7d;"
  ]

/-- The `templates.debouncing` fragment of src/unnamed/part_000, verbatim. -/
def templates.debouncing : String :=
  String.intercalate "\n" [
    "",
    "    // Debouncing mechanism",
    "    let lastExecutionTime = 0;",
    "    const DEBOUNCE_DELAY = 1000; // Minimum time between executions",
    "    ",
    "    function shouldExecute() \x7b",
    "        const now = Date.now();",
    "        if (now - lastExecutionTime < DEBOUNCE_DELAY) \x7b",
    "            console.log('Execution debounced');",
    "            return false;",
    "        \x7d",
    "        lastExecutionTime = now;",
    "        return true;",
    "    \x7d"
  ]

/-- The `templates.mutationObserver` fragment of src/unnamed/part_000, verbatim. -/
def templates.mutationObserver : String :=
  String.intercalate "\n" [
    "",
    "    // DOM mutation observer",
    "    const observer = new MutationObserver((mutations) => \x7b",
    "        for (const mutation of mutations) \x7b",
    "            if (mutation.type === 'childList' && mutation.addedNodes.length > 0) \x7b",
    "                // Re-apply modifications if target elements are added",
    "                applyModifications();",
    "            \x7d",
    "        \x7d",
    "    \x7d);",
    "    ",
    "    // Start observing",
    "    observer.observe(document.body, \x7b",
    "        childList: true,",
    "        subtree: true",
    "    \x7d);",
    "    ",
    "    // Store observer for cleanup",
    "    window.__scriptObserver = observer;"
  ]

/-- The `templates.cleanup` fragment of src/unnamed/part_000, verbatim. -/
def templates.cleanup : String :=
  String.intercalate "\n" [
    "",
    "    // Cleanup function",
    "    function cleanup() \x7b",
    "        // Remove event listeners",
    "        window.removeEventListener('popstate', handleNavigation);",
    "        ",
    "        // Disconnect observers",
    "        if (window.__scriptObserver) \x7b",
    "            window.__scriptObserver.disconnect();",
    "            delete window.__scriptObserver;",
    "        \x7d",
    "        ",
    "        // Clear intervals/timeouts",
    "        if (window.__scriptInterval) \x7b",
    "            clearInterval(window.__scriptInterval);",
    "            delete window.__scriptInterval;",
    "        \x7d",
    "        ",
    "        console.log('Script cleanup completed');",
    "    \x7d",
    "    ",
    "    // Auto-cleanup on page unload",
    "    window.addEventListener('beforeunload', cleanup);"
  ]

/-- The `templates.errorHandling` fragment of src/unnamed/part_000, verbatim. -/
def templates.errorHandling : String :=
  String.intercalate "\n" [
    "",
    "    // Global error handling",
    "    try \x7b",
    "        // Main execution",
    "        applyModifications();",
    "    \x7d catch (error) \x7b",
    "        console.error('Script execution error:', error);",
    "        // Attempt recovery",
    "        setTimeout(() => \x7b",
    "            try \x7b",
    "                applyModifications();",
    "            \x7d catch (retryError) \x7b",
    "                console.error('Retry failed:', retryError);",
    "            \x7d",
    "        \x7d, 1000);",
    "    \x7d"
  ]

/-- The `templates.preventDuplicates` fragment of src/unnamed/part_000, verbatim. -/
def templates.preventDuplicates : String :=
  String.intercalate "\n" [
    "",
    "    // Prevent duplicate execution",
    "    if (window.__scriptExecuted) \x7b",
    "        console.log('Script already executed, skipping');",
    "        return;",
    "    \x7d",
    "    window.__scriptExecuted = true;"
  ]

/-- The `templates.elementCaching` fragment of src/unnamed/part_000, verbatim. -/
def templates.elementCaching : String :=
  String.intercalate "\n" [
    "",
    "    // Element caching for performance",
    "    const elementCache = new Map();",
    "    ",
    "    function getCachedElement(selector) \x7b",
    "        if (!elementCache.has(selector)) \x7b",
    "            elementCache.set(selector, document.querySelector(selector));",
    "        \x7d",
    "        return elementCache.get(selector);",
    "    \x7d",
    "    ",
    "    function clearElementCache() \x7b",
    "        elementCache.clear();",
    "    \x7d"
  ]

/-- The `templates.resourceCleanup` fragment of src/unnamed/part_000, verbatim. -/
def templates.resourceCleanup : String :=
  String.intercalate "\n" [
    "",
    "    // Resource cleanup",
    "    function cleanupResources() \x7b",
    "        // Clear intervals",
    "        if (window.__scriptIntervals) \x7b",
    "            window.__scriptIntervals.forEach(id => clearInterval(id));",
    "            window.__scriptIntervals = [];",
    "        \x7d",
    "        ",
    "        // Clear timeouts",
    "        if (window.__scriptTimeouts) \x7b",
    "            window.__scriptTimeouts.forEach(id => clearTimeout(id));",
    "            window.__scriptTimeouts = [];",
    "        \x7d",
    "        ",
    "        // Clear event listeners",
    "        if (window.__scriptListeners) \x7b",
    "            window.__scriptListeners.forEach((\x7belement, event, handler\x7d) => \x7b",
    "                element.removeEventListener(event, handler);",
    "            \x7d);",
    "            window.__scriptListeners = [];",
    "        \x7d",
    "    \x7d",
    "    ",
    "    window.addEventListener('beforeunload', cleanupResources);"
  ]

/-- The `templates.intervalMonitoring` fragment of src/unnamed/part_000, verbatim. -/
def templates.intervalMonitoring : String :=
  String.intercalate "\n" [
    "",
    "    // Interval monitoring for dynamic content",
    "    window.__scriptIntervals = window.__scriptIntervals || [];",
    "    ",
    "    const monitoringInterval = setInterval(() => \x7b",
    "        const elements = document.querySelectorAll(selector);",
    "        if (elements.length > 0) \x7b",
    "            applyModifications();",
    "        \x7d",
    "    \x7d, 2000); // Check every 2 seconds",
    "    ",
    "    window.__scriptIntervals.push(monitoringInterval);"
  ]

/-- The `templates.urlChangeMonitoring` fragment of src/unnamed/part_000, verbatim. -/
def templates.urlChangeMonitoring : String :=
  String.intercalate "\n" [
    "",
    "    // URL change monitoring",
    "    let lastUrl = location.href;",
    "    ",
    "    const urlObserver = new MutationObserver(() => \x7b",
    "        const url = location.href;",
    "        if (url !== lastUrl) \x7b",
    "            lastUrl = url;",
    "            console.log('URL changed:', url);",
    "            setTimeout(() => applyModifications(), 500);",
    "        \x7d",
    "    \x7d);",
    "    ",
    "    urlObserver.observe(document, \x7b subtree: true, childList: true \x7d);"
  ]

/-- The `templates.consoleLogging` fragment of src/unnamed/part_000, verbatim. -/
def templates.consoleLogging : String :=
  String.intercalate "\n" [
    "",
    "    // Enhanced console logging",
    "    const log = \x7b",
    "        info: (msg, ...args) => console.log(`[Script] $\x7bmsg\x7d`, ...args),",
    "        warn: (msg, ...args) => console.warn(`[Script] $\x7bmsg\x7d`, ...args),",
    "        error: (msg, ...args) => console.error(`[Script] $\x7bmsg\x7d`, ...args),",
    "        debug: (msg, ...args) => DEBUG && console.log(`[Script Debug] $\x7bmsg\x7d`, ...args)",
    "    \x7d;"
  ]

/-- The `templates.elementHighlighting` fragment of src/unnamed/part_000, verbatim. -/
def templates.elementHighlighting : String :=
  String.intercalate "\n" [
    "",
    "    // Element highlighting for debugging",
    "    function highlightElement(element) \x7b",
    "        const originalStyle = element.style.cssText;",
    "        element.style.outline = '2px solid #ff0000';",
    "        element.style.backgroundColor = 'rgba(255,0,0,0.1)';",
    "        ",
    "        setTimeout(() => \x7b",
    "            element.style.cssText = originalStyle;",
    "        \x7d, 3000);",
    "    \x7d"
  ]

/-- The `templates.widgetLoader` fragment of src/unnamed/part_000, verbatim. -/
def templates.widgetLoader : String :=
  String.intercalate "\n" [
    "",
    "    // Widget loader with retry mechanism",
    "    function loadWidget(url, containerId, retries = 3) \x7b",
    "        const container = document.getElementById(containerId);",
    "        if (!container) \x7b",
    "            console.error('Widget container not found:', containerId);",
    "            return;",
    "        \x7d",
    "        ",
    "        const script = document.createElement('script');",
    "        script.src = url;",
    "        script.async = true;",
    "        ",
    "        script.onload = () => \x7b",
    "            console.log('Widget loaded successfully:', url);",
    "        \x7d;",
    "        ",
    "        script.onerror = () => \x7b",
    "            if (retries > 0) \x7b",
    "                console.warn(`Widget load failed, retrying... ($\x7bretries\x7d left)`);",
    "                setTimeout(() => loadWidget(url, containerId, retries - 1), 2000);",
    "            \x7d else \x7b",
    "                console.error('Failed to load widget after all retries:', url);",
    "            \x7d",
    "        \x7d;",
    "        ",
    "        container.appendChild(script);",
    "    \x7d"
  ]

/-- The `templates.asyncLoading` fragment of src/unnamed/part_000, verbatim. -/
def templates.asyncLoading : String :=
  String.intercalate "\n" [
    "",
    "    // Async resource loading",
    "    async function loadResourceAsync(url) \x7b",
    "        try \x7b",
    "            const response = await fetch(url);",
    "            if (!response.ok) throw new Error(`HTTP error! status: $\x7bresponse.status\x7d`);",
    "            return await response.text();",
    "        \x7d catch (error) \x7b",
    "            console.error('Failed to load resource:', error);",
    "            return null;",
    "        \x7d",
    "    \x7d"
  ]

/-- The `templates.fallbackMechanisms` fragment of src/unnamed/part_000, verbatim. -/
def templates.fallbackMechanisms : String :=
  String.intercalate "\n" [
    "",
    "    // Fallback mechanisms for resilience",
    "    function tryMultipleSelectors(selectors) \x7b",
    "        for (const selector of selectors) \x7b",
    "            try \x7b",
    "                const elements = document.querySelectorAll(selector);",
    "                if (elements.length > 0) \x7b",
    "                    return elements;",
    "                \x7d",
    "            \x7d catch (e) \x7b",
    "                console.warn(`Invalid selector: $\x7bselector\x7d`);",
    "            \x7d",
    "        \x7d",
    "        return [];",
    "    \x7d"
  ]

/-- The `templates.vdpDetection` fragment of src/unnamed/part_000, verbatim. -/
def templates.vdpDetection : String :=
  String.intercalate "\n" [
    "",
    "    // VDP (Vehicle Detail Page) detection",
    "    function isVDP() \x7b",
    "        const indicators = [",
    "            window.location.pathname.includes('/vehicle/'),",
    "            window.location.pathname.includes('/inventory/'),",
    "            document.querySelector('.vehicle-details') !== null,",
    "            document.querySelector('[data-vehicle-id]') !== null",
    "        ];",
    "        return indicators.some(indicator => indicator);",
    "    \x7d",
    "    ",
    "    if (!isVDP()) \x7b",
    "        console.log('Not a VDP page, skipping');",
    "        return;",
    "    \x7d"
  ]

/-- The `templates.srpDetection` fragment of src/unnamed/part_000, verbatim. -/
def templates.srpDetection : String :=
  String.intercalate "\n" [
    "",
    "    // SRP (Search Results Page) detection",
    "    function isSRP() \x7b",
    "        const indicators = [",
    "            window.location.pathname.includes('/search'),",
    "            window.location.pathname.includes('/inventory'),",
    "            document.querySelector('.search-results') !== null,",
    "            document.querySelector('.vehicle-grid') !== null",
    "        ];",
    "        return indicators.some(indicator => indicator);",
    "    \x7d",
    "    ",
    "    if (!isSRP()) \x7b",
    "        console.log('Not an SRP page, skipping');",
    "        return;",
    "    \x7d"
  ]

/-- The `templates.customPageDetection` fragment of src/unnamed/part_000, verbatim. -/
def templates.customPageDetection : String :=
  String.intercalate "\n" [
    "",
    "    // Custom page detection",
    "    function detectPageType() \x7b",
    "        const path = window.location.pathname;",
    "        const pageTypes = \x7b",
    "            'home': path === '/' || path === '/index',",
    "            'contact': path.includes('/contact'),",
    "            'about': path.includes('/about'),",
    "            'service': path.includes('/service')",
    "        \x7d;",
    "        ",
    "        for (const [type, match] of Object.entries(pageTypes)) \x7b",
    "            if (match) return type;",
    "        \x7d",
    "        return 'unknown';",
    "    \x7d",
    "    ",
    "    const pageType = detectPageType();",
    "    console.log('Detected page type:', pageType);"
  ]

end ScriptBuilder

namespace AppJs

/-! ### Advanced selector synthesis (src/public/app.js, `updateSelectorPreview`)

The DOM loop of `updateSelectorPreview` reads one `(attribute, condition,
value)` triple per condition row and accumulates one selector fragment per
row.  The pure core of that loop is embedded here; attribute and operator
are kept as the raw `<option value>` strings of the form markup. -/

/-- One row of the advanced selector builder. -/
structure Condition where
  attrKind : String
  condType : String
  value : String
deriving DecidableEq, Repr

/-- Fragment of the `class` branch of the `switch`. -/
def classFragment (condition value : String) : String :=
  if condition = "contains" then "[class*=\"" ++ value ++ "\"]"
  else if condition = "equals" then "[class=\"" ++ value ++ "\"]"
  else if condition = "starts-with" then "[class^=\"" ++ value ++ "\"]"
  else if condition = "ends-with" then "[class$=\"" ++ value ++ "\"]"
  else if condition = "exists" then "[class]"
  else if condition = "not-exists" then ":not([class])"
  else ""

/-- Fragment of the `id` branch of the `switch`. -/
def idFragment (condition value : String) : String :=
  if condition = "contains" then "[id*=\"" ++ value ++ "\"]"
  else if condition = "equals" then "#" ++ value
  else if condition = "starts-with" then "[id^=\"" ++ value ++ "\"]"
  else if condition = "ends-with" then "[id$=\"" ++ value ++ "\"]"
  else if condition = "exists" then "[id]"
  else if condition = "not-exists" then ":not([id])"
  else ""

/-- Shared attribute-selector shape used by the `data` and `attribute`
branches once the name and the (possibly empty) value part are known. -/
def attrOpFragment (condition attrName attrValue : String) : String :=
  if condition = "contains" then
    if jsTruthy attrValue then "[" ++ attrName ++ "*=\"" ++ attrValue ++ "\"]" else "[" ++ attrName ++ "]"
  else if condition = "equals" then
    if jsTruthy attrValue then "[" ++ attrName ++ "=\"" ++ attrValue ++ "\"]" else "[" ++ attrName ++ "]"
  else if condition = "starts-with" then
    if jsTruthy attrValue then "[" ++ attrName ++ "^=\"" ++ attrValue ++ "\"]" else "[" ++ attrName ++ "]"
  else if condition = "ends-with" then
    if jsTruthy attrValue then "[" ++ attrName ++ "$=\"" ++ attrValue ++ "\"]" else "[" ++ attrName ++ "]"
  else if condition = "exists" then "[" ++ attrName ++ "]"
  else if condition = "not-exists" then ":not([" ++ attrName ++ "])"
  else ""

/-- Fragment of the `data` branch: `value.split('=')`, `parts[0]` prefixed
with `data-` unless already so prefixed, `parts[1] || ''` as the value. -/
def dataFragment (condition value : String) : String :=
  let parts := jsSplit '=' value
  let p0 := parts.headD ""
  let attrName := if p0.startsWith "data-" then p0 else "data-" ++ p0
  let attrValue := parts.getD 1 ""
  attrOpFragment condition attrName attrValue

/-- Fragment of the `text` branch: every operator with a value yields a
jQuery-style `:contains("v")` pseudo-selector. -/
def textFragment (condition value : String) : String :=
  if condition = "contains" then ":contains(\"" ++ value ++ "\")"
  else if condition = "equals" then ":contains(\"" ++ value ++ "\")"
  else if condition = "starts-with" then ":contains(\"" ++ value ++ "\")"
  else if condition = "ends-with" then ":contains(\"" ++ value ++ "\")"
  else ""

/-- Fragment of the `tag` branch: only `equals` is handled. -/
def tagFragment (condition value : String) : String :=
  if condition = "equals" then jsToLower value else ""

/-- Fragment of the `attribute` branch: like `data` without the `data-`
prefixing. -/
def attributeFragment (condition value : String) : String :=
  let parts := jsSplit '=' value
  let attrName := parts.headD ""
  let attrValue := parts.getD 1 ""
  attrOpFragment condition attrName attrValue

/-- The per-row body of the `rows.forEach` loop, including the guard
`if (!value && condition !== 'exists' && condition !== 'not-exists') return;`. -/
def rowFragment (c : Condition) : String :=
  if ¬ jsTruthy c.value ∧ c.condType ≠ "exists" ∧ c.condType ≠ "not-exists" then ""
  else if c.attrKind = "class" then classFragment c.condType c.value
  else if c.attrKind = "id" then idFragment c.condType c.value
  else if c.attrKind = "data" then dataFragment c.condType c.value
  else if c.attrKind = "text" then textFragment c.condType c.value
  else if c.attrKind = "tag" then tagFragment c.condType c.value
  else if c.attrKind = "attribute" then attributeFragment c.condType c.value
  else ""

/-- The selector string accumulated by `updateSelectorPreview`
(src/public/app.js lines 224-380): fragments are appended in row order
with no separator. -/
def updateSelectorPreview (rows : List Condition) : String :=
  String.join (rows.map rowFragment)

end AppJs

namespace ScriptBuilder

/-! ### Remaining `ScriptBuilder` methods (src/unnamed/part_000) -/

/-- Hexadecimal digit (lowercase), for JSON control-character escapes. -/
def hexDigit (n : Nat) : Char :=
  if n < 10 then Char.ofNat (48 + n) else Char.ofNat (87 + n)

/-- Per-character JSON string escaping as performed by `JSON.stringify`. -/
def jsonEscapeChar (c : Char) : List Char :=
  if c = '"' then ['\\', '"']
  else if c = '\\' then ['\\', '\\']
  else if c = '\n' then ['\\', 'n']
  else if c = '\r' then ['\\', 'r']
  else if c = '\t' then ['\\', 't']
  else if c.toNat = 8 then ['\\', 'b']
  else if c.toNat = 12 then ['\\', 'f']
  else if c.toNat < 32 then ['\\', 'u', '0', '0', hexDigit (c.toNat / 16), hexDigit (c.toNat % 16)]
  else [c]

/-- JSON string literal for `s`. -/
def jsonQuote (s : String) : String :=
  "\"" ++ String.mk (s.data.foldr (fun c acc => jsonEscapeChar c ++ acc) []) ++ "\""

/-- `JSON.stringify` of an array of strings, as used for the fallback
selector list. -/
def jsonStringifyStringArray (xs : List String) : String :=
  "[" ++ String.intercalate "," (xs.map jsonQuote) ++ "]"

/-- The parameterized `templates.waitForElement` fragment, transcribed
verbatim; its first parameter is unused by the template body (the body
refers to the runtime `selector` argument instead). -/
def templates.waitForElement (_selector : String) (timeout : Nat) : String :=
  String.intercalate "\n" [
    "",
    "    /**",
    "     * Wait for element to appear in DOM",
    "     */",
    "    function waitForElement(selector, timeout = " ++ toString timeout ++ ") \x7b",
    "        return new Promise((resolve, reject) => \x7b",
    "            const element = document.querySelector(selector);",
    "            if (element) \x7b",
    "                resolve(element);",
    "                return;",
    "            \x7d",
    "            ",
    "            const observer = new MutationObserver((mutations, obs) => \x7b",
    "                const element = document.querySelector(selector);",
    "                if (element) \x7b",
    "                    obs.disconnect();",
    "                    resolve(element);",
    "                \x7d",
    "            \x7d);",
    "            ",
    "            observer.observe(document.body, \x7b",
    "                childList: true,",
    "                subtree: true",
    "            \x7d);",
    "            ",
    "            setTimeout(() => \x7b",
    "                observer.disconnect();",
    "                reject(new Error(`Element $\x7bselector\x7d not found after $\x7btimeout\x7dms`));",
    "            \x7d, timeout);",
    "        \x7d);",
    "    \x7d"
  ]

/-- Humanization of a feature name in the header: a space is inserted in
front of every capital (`replace(/([A-Z])/g, ' $1')`), the result is
lowercased, and the first character is capitalized. -/
def humanizeFeature (f : String) : String :=
  let spaced := f.data.foldr (fun c acc => (if c.isUpper then [' ', c] else [c]) ++ acc) []
  let lowered := spaced.map Char.toLower
  String.mk (match lowered with
    | [] => []
    | c :: rest => c.toUpper :: rest)

/-- The `templates.header` arrow function: doc-comment block with optional
description and the humanized enabled-feature list. -/
def templates.header (description : String) (enabledFeatures : List String) : String :=
  String.intercalate "\n"
    (["/**"]
      ++ (if jsTruthy description then
            [" * " ++ description, " * " ++ String.mk (List.replicate 60 '-')]
          else [])
      ++ (if enabledFeatures ≠ [] then
            [" * ", " * Enabled Features:"]
              ++ enabledFeatures.map (fun f => " * - " ++ humanizeFeature f)
          else [])
      ++ [" */"])

/-- The `indent` method: each line of `text` gains `level` levels of
four-space indentation. -/
def indent (text : String) (level : Nat) : String :=
  let spaces := String.join (List.replicate level "    ")
  String.intercalate "\n" ((jsSplit '\n' text).map (fun line => spaces ++ line))

/-- Keyed action parameters gathered from the form UI; every field models
one `opts.<name>` read performed by `generateActionCode`.  Values the UI
did not provide are the empty string (the source guards each read with
`|| ''`, a ternary, or string interpolation). -/
structure ActionOptions where
  newText : String := ""
  newHTML : String := ""
  elementCreationMode : String := ""
  customHtmlContent : String := ""
  customHtmlPosition : String := ""
  position : String := ""
  elementType : String := ""
  customTagName : String := ""
  elementAttributes : String := ""
  className : String := ""
  elementId : String := ""
  innerHTML : String := ""
  elementText : String := ""
  attrName : String := ""
  attrValue : String := ""
  styles : String := ""
  eventType : String := ""
  eventCode : String := ""
  widgetId : String := ""
  widgetHTML : String := ""
  widgetScript : String := ""
  visibilityAction : String := ""
  scrollBehavior : String := ""
  scrollBlock : String := ""
  cloneDeep : String := ""
  clonePosition : String := ""
  wrapperTag : String := ""
  wrapperClass : String := ""
  formAction : String := ""
  formValue : String := ""
  ajaxUrl : String := ""
  ajaxMethod : String := ""
  ajaxData : String := ""
  cookieAction : String := ""
  cookieExpiry : String := ""
  cookieName : String := ""
  cookieValue : String := ""
  storageAction : String := ""
  storageKey : String := ""
  storageValue : String := ""
  customCode : String := ""
deriving DecidableEq, Repr

/-- JavaScript `a || b` on strings: `b` when `a` is empty. -/
def jsOr (a b : String) : String :=
  if jsTruthy a then a else b

/-- The `getInsertionCode` method: position-specific DOM insertion
statement with fallback to `afterend`. -/
def getInsertionCode (position : String) : String :=
  if position = "beforebegin" then "element.parentNode.insertBefore(newElement, element);"
  else if position = "afterbegin" then "element.insertBefore(newElement, element.firstChild);"
  else if position = "beforeend" then "element.appendChild(newElement);"
  else if position = "afterend" then "element.parentNode.insertBefore(newElement, element.nextSibling);"
  else if position = "replace" then "element.parentNode.replaceChild(newElement, element);"
  else "element.parentNode.insertBefore(newElement, element.nextSibling);"

/-- The `getCustomHtmlInsertionCode` method. -/
def getCustomHtmlInsertionCode (position : String) : String :=
  if position = "beforebegin" then "element.insertAdjacentHTML(\"beforebegin\", customHtmlContent);"
  else if position = "afterbegin" then "element.insertAdjacentHTML(\"afterbegin\", customHtmlContent);"
  else if position = "beforeend" then "element.insertAdjacentHTML(\"beforeend\", customHtmlContent);"
  else if position = "afterend" then "element.insertAdjacentHTML(\"afterend\", customHtmlContent);"
  else if position = "replace" then "element.outerHTML = customHtmlContent;"
  else "element.insertAdjacentHTML(\"afterend\", customHtmlContent);"

/-- Split a character list at the first `'='`, mirroring the anchored
regex group `([^=]+)=` (the group cannot span an `'='`). -/
def splitFirstEq : List Char → Option (List Char × List Char)
  | [] => none
  | '=' :: rest => some ([], rest)
  | c :: rest =>
    match splitFirstEq rest with
    | none => none
    | some (a, b) => some (c :: a, b)

/-- Quote characters accepted by the attribute regex `["']`. -/
def isQuote (c : Char) : Bool :=
  c = '"' ∨ c = '\''

/-- The regex `^([^=]+)=["']([^"']*)["']$` used on each line of the
`elementAttributes` parameter; yields attribute name and value. -/
def matchAttr (s : String) : Option (String × String) :=
  match splitFirstEq s.data with
  | none => none
  | some (name, rest) =>
    if name = [] then none
    else
      match rest with
      | [] => none
      | q :: rest2 =>
        if isQuote q then
          match rest2.reverse with
          | [] => none
          | qe :: midRev =>
            if isQuote qe ∧ midRev.all (fun c => ¬ isQuote c) then
              some (String.mk name, String.mk midRev.reverse)
            else none
        else none

/-- The global `dash + [a-z]` → uppercase-letter rewrite converting a
kebab-case CSS property to camelCase, as done by the `prop.replace`
call of the `apply-styles` branch. -/
def camelizeChars : List Char → List Char
  | [] => []
  | '-' :: c :: rest =>
    if 'a' ≤ c ∧ c ≤ 'z' then c.toUpper :: camelizeChars rest
    else '-' :: camelizeChars (c :: rest)
  | c :: rest => c :: camelizeChars rest

/-- camelCase conversion on strings. -/
def camelize (s : String) : String :=
  String.mk (camelizeChars s.data)

/-- One `property:value` pair of the `apply-styles` parameter rendered to
a style assignment, or the empty string for malformed pairs. -/
def styleAssignment (style : String) : String :=
  let parts := (jsSplit ':' style).map jsTrim
  let prop := parts.getD 0 ""
  let value := parts.getD 1 ""
  if jsTruthy prop ∧ jsTruthy value then
    "element.style." ++ camelize prop ++ " = '" ++ value ++ "';"
  else ""

/-- The `'add-element'` branch of `generateActionCode`. -/
def addElementCode (opts : ActionOptions) : String :=
  if opts.elementCreationMode = "custom-html" ∧ jsTruthy opts.customHtmlContent then
    let position := jsOr opts.customHtmlPosition (jsOr opts.position "afterend")
    "\n        // Insert custom HTML content\n        const customHtmlContent = `"
      ++ opts.customHtmlContent ++ "`;\n        " ++ getCustomHtmlInsertionCode position
  else
    let tagName :=
      if opts.elementType = "custom" then jsOr opts.customTagName "div"
      else jsOr opts.elementType "div"
    let attributes := ((jsSplit '\n' opts.elementAttributes).map jsTrim).filter (fun a => a.length > 0)
    let attributesCode := String.join (attributes.map (fun attr =>
      match matchAttr attr with
      | some (attrName, attrValue) =>
        "\n        newElement.setAttribute('" ++ attrName ++ "', '" ++ attrValue ++ "');"
      | none => ""))
    "\n        // Create and add new element\n        const newElement = document.createElement('"
      ++ tagName ++ "');\n        "
      ++ (if jsTruthy opts.className then "newElement.className = '" ++ opts.className ++ "';" else "")
      ++ "\n        "
      ++ (if jsTruthy opts.elementId then "newElement.id = '" ++ opts.elementId ++ "';" else "")
      ++ "\n        "
      ++ (if jsTruthy opts.innerHTML then "newElement.innerHTML = `" ++ opts.innerHTML ++ "`;"
          else if jsTruthy opts.elementText then "newElement.textContent = '" ++ opts.elementText ++ "';"
          else "")
      ++ attributesCode
      ++ "\n        \n        // Insert element\n        "
      ++ getInsertionCode (jsOr opts.position "afterend")

/-- The `'cookie-management'` branch of `generateActionCode`. -/
def cookieCode (opts : ActionOptions) : String :=
  if opts.cookieAction = "set" then
    "\n        // Set cookie\n        const expires = new Date();\n        expires.setDate(expires.getDate() + "
      ++ jsOr opts.cookieExpiry "30"
      ++ ");\n        document.cookie = '" ++ opts.cookieName ++ "=" ++ opts.cookieValue
      ++ "; expires=' + expires.toUTCString() + '; path=/';"
  else if opts.cookieAction = "get" then
    "\n        // Get cookie\n        const name = '" ++ opts.cookieName
      ++ "=';\n        const decodedCookie = decodeURIComponent(document.cookie);\n        const ca = decodedCookie.split(';');\n        for(let c of ca) \x7b\n            while (c.charAt(0) === ' ') c = c.substring(1);\n            if (c.indexOf(name) === 0) \x7b\n                console.log('Cookie value:', c.substring(name.length));\n            \x7d\n        \x7d"
  else
    "\n        // Delete cookie\n        document.cookie = '" ++ opts.cookieName
      ++ "=; expires=Thu, 01 Jan 1970 00:00:00 UTC; path=/;';"

/-- The `'local-storage'` branch of `generateActionCode`. -/
def localStorageCode (opts : ActionOptions) : String :=
  if opts.storageAction = "set" then
    "\n        // Set localStorage item\n        localStorage.setItem('" ++ opts.storageKey
      ++ "', '" ++ opts.storageValue ++ "');"
  else if opts.storageAction = "get" then
    "\n        // Get localStorage item\n        const value = localStorage.getItem('" ++ opts.storageKey
      ++ "');\n        console.log('Storage value:', value);"
  else if opts.storageAction = "remove" then
    "\n        // Remove localStorage item\n        localStorage.removeItem('" ++ opts.storageKey ++ "');"
  else
    "\n        // Clear all localStorage\n        localStorage.clear();"

/-- The `generateActionCode` method: one string-template branch per action
kind, unknown kinds yielding the empty block. -/
def generateActionCode (actionType : String) (opts : ActionOptions) : String :=
  if actionType = "modify-text" then
    "\n        // Modify text content\n        element.textContent = '" ++ opts.newText ++ "';"
  else if actionType = "modify-html" then
    "\n        // Modify HTML content\n        element.innerHTML = `" ++ opts.newHTML ++ "`;"
  else if actionType = "add-element" then addElementCode opts
  else if actionType = "remove-element" then
    "\n        // Remove element\n        element.remove();"
  else if actionType = "add-class" then
    "\n        // Add CSS class\n        element.classList.add('" ++ opts.className ++ "');"
  else if actionType = "remove-class" then
    "\n        // Remove CSS class\n        element.classList.remove('" ++ opts.className ++ "');"
  else if actionType = "set-attribute" then
    "\n        // Set attribute\n        element.setAttribute('" ++ opts.attrName ++ "', '" ++ opts.attrValue ++ "');"
  else if actionType = "apply-styles" then
    let styleLines := (jsSplit ';' opts.styles).filter (fun s => jsTruthy (jsTrim s))
    "\n        // Apply CSS styles\n        "
      ++ String.intercalate "\n        " ((styleLines.map styleAssignment).filter jsTruthy)
  else if actionType = "add-listener" then
    "\n        // Add event listener\n        element.addEventListener('" ++ jsOr opts.eventType "click"
      ++ "', function(event) \x7b\n            " ++ jsOr opts.eventCode "// Event handler code"
      ++ "\n        \x7d);"
  else if actionType = "insert-widget" then
    "\n        // Insert widget\n        const widgetContainer = document.createElement('div');\n        widgetContainer.id = '"
      ++ jsOr opts.widgetId "custom-widget" ++ "';\n        widgetContainer.innerHTML = `"
      ++ opts.widgetHTML ++ "`;\n        "
      ++ (if jsTruthy opts.widgetScript then
            "\n        // Load widget script\n        const script = document.createElement('script');\n        script.src = '"
              ++ opts.widgetScript ++ "';\n        script.async = true;\n        document.body.appendChild(script);"
          else "")
      ++ "\n        \n        element.appendChild(widgetContainer);"
  else if actionType = "toggle-visibility" then
    let action := jsOr opts.visibilityAction "toggle"
    if action = "toggle" then
      "\n        // Toggle visibility\n        element.style.display = element.style.display === 'none' ? '' : 'none';"
    else if action = "show" then
      "\n        // Show element\n        element.style.display = '';\n        element.style.visibility = 'visible';"
    else
      "\n        // Hide element\n        element.style.display = 'none';"
  else if actionType = "scroll-to" then
    "\n        // Scroll to element\n        element.scrollIntoView(\x7b\n            behavior: '"
      ++ jsOr opts.scrollBehavior "smooth" ++ "',\n            block: '"
      ++ jsOr opts.scrollBlock "center" ++ "'\n        \x7d);"
  else if actionType = "clone-element" then
    "\n        // Clone element\n        const clone = element.cloneNode("
      ++ (if opts.cloneDeep = "true" then "true" else "false") ++ ");\n        "
      ++ (if opts.clonePosition = "after" then "element.parentNode.insertBefore(clone, element.nextSibling);"
          else if opts.clonePosition = "before" then "element.parentNode.insertBefore(clone, element);"
          else "element.parentNode.appendChild(clone);")
  else if actionType = "wrap-element" then
    "\n        // Wrap element\n        const wrapper = document.createElement('" ++ jsOr opts.wrapperTag "div"
      ++ "');\n        "
      ++ (if jsTruthy opts.wrapperClass then "wrapper.className = '" ++ opts.wrapperClass ++ "';" else "")
      ++ "\n        element.parentNode.insertBefore(wrapper, element);\n        wrapper.appendChild(element);"
  else if actionType = "unwrap-element" then
    "\n        // Unwrap element\n        const parent = element.parentNode;\n        if (parent && parent.parentNode) \x7b\n            while (element.firstChild) \x7b\n                parent.parentNode.insertBefore(element.firstChild, parent);\n            \x7d\n            parent.parentNode.removeChild(parent);\n        \x7d"
  else if actionType = "form-manipulation" then
    "\n        // Form manipulation\n        "
      ++ (if opts.formAction = "disable" then "element.disabled = true;"
          else if opts.formAction = "enable" then "element.disabled = false;"
          else if opts.formAction = "readonly" then "element.readOnly = true;"
          else if opts.formAction = "required" then "element.required = true;"
          else if opts.formAction = "setValue" then "element.value = '" ++ opts.formValue ++ "';"
          else if opts.formAction = "clear" then "element.value = '';"
          else "")
  else if actionType = "ajax-request" then
    "\n        // AJAX request\n        fetch('" ++ opts.ajaxUrl ++ "', \x7b\n            method: '"
      ++ jsOr opts.ajaxMethod "GET"
      ++ "',\n            headers: \x7b\n                'Content-Type': 'application/json'\n            \x7d"
      ++ (if jsTruthy opts.ajaxData then ",\n            body: '" ++ opts.ajaxData ++ "'" else "")
      ++ "\n        \x7d)\n        .then(response => response.json())\n        .then(data => \x7b\n            console.log('AJAX response:', data);\n            // Process response data\n        \x7d)\n        .catch(error => console.error('AJAX error:', error));"
  else if actionType = "cookie-management" then cookieCode opts
  else if actionType = "local-storage" then localStorageCode opts
  else if actionType = "custom" then
    "\n        // Custom JavaScript code\n        " ++ jsOr opts.customCode "// Your custom code here"
  else ""

end ScriptBuilder

namespace ScriptBuilder

/-- The feature toggle set, one boolean per checkbox of the feature
catalog, in the key order of the object literal built by
`gatherConfiguration` (src/public/app.js lines 1155-1176). -/
structure Features where
  spaFriendly : Bool := false
  domReady : Bool := false
  errorHandling : Bool := false
  preventDuplicates : Bool := false
  debouncing : Bool := false
  elementCaching : Bool := false
  resourceCleanup : Bool := false
  mutationObserver : Bool := false
  intervalMonitoring : Bool := false
  urlChangeMonitoring : Bool := false
  debugMode : Bool := false
  consoleLogging : Bool := false
  elementHighlighting : Bool := false
  widgetLoader : Bool := false
  asyncLoading : Bool := false
  fallbackMechanisms : Bool := false
  vdpDetection : Bool := false
  srpDetection : Bool := false
  customPageDetection : Bool := false
  cleanup : Bool := false
deriving DecidableEq, Repr

/-- `Object.keys(features).filter(f => features[f])`: the names of the
enabled features in declaration order. -/
def enabledFeaturesList (f : Features) : List String :=
  (if f.spaFriendly then ["spaFriendly"] else [])
    ++ (if f.domReady then ["domReady"] else [])
    ++ (if f.errorHandling then ["errorHandling"] else [])
    ++ (if f.preventDuplicates then ["preventDuplicates"] else [])
    ++ (if f.debouncing then ["debouncing"] else [])
    ++ (if f.elementCaching then ["elementCaching"] else [])
    ++ (if f.resourceCleanup then ["resourceCleanup"] else [])
    ++ (if f.mutationObserver then ["mutationObserver"] else [])
    ++ (if f.intervalMonitoring then ["intervalMonitoring"] else [])
    ++ (if f.urlChangeMonitoring then ["urlChangeMonitoring"] else [])
    ++ (if f.debugMode then ["debugMode"] else [])
    ++ (if f.consoleLogging then ["consoleLogging"] else [])
    ++ (if f.elementHighlighting then ["elementHighlighting"] else [])
    ++ (if f.widgetLoader then ["widgetLoader"] else [])
    ++ (if f.asyncLoading then ["asyncLoading"] else [])
    ++ (if f.fallbackMechanisms then ["fallbackMechanisms"] else [])
    ++ (if f.vdpDetection then ["vdpDetection"] else [])
    ++ (if f.srpDetection then ["srpDetection"] else [])
    ++ (if f.customPageDetection then ["customPageDetection"] else [])
    ++ (if f.cleanup then ["cleanup"] else [])

/-- The configuration record consumed by `generateScript`,
`validateConfig` and `generateAndSave` (src/unnamed/part_000). -/
structure Config where
  scriptName : String := ""
  scriptDescription : String := ""
  targetSelector : String := ""
  selectorType : String := "css"
  fallbackSelectors : List String := []
  actionType : String := ""
  actionOptions : ActionOptions := {}
  features : Features := {}
  waitForElement : Bool := false
deriving DecidableEq, Repr

/-- Element-selection statements of `applyModifications`: XPath snapshot
iteration, the fallback-chain loop, or a single `querySelectorAll`. -/
def selectorBlock (config : Config) : List String :=
  if config.selectorType = "xpath" then
    [ "        // XPath selector",
      "        const xpath = '" ++ config.targetSelector ++ "';",
      "        const xpathResult = document.evaluate(xpath, document, null, XPathResult.ORDERED_NODE_SNAPSHOT_TYPE, null);",
      "        const elements = [];",
      "        for (let i = 0; i < xpathResult.snapshotLength; i++) \x7b",
      "            elements.push(xpathResult.snapshotItem(i));",
      "        \x7d" ]
  else if config.fallbackSelectors ≠ [] then
    let allSelectors := (config.targetSelector :: config.fallbackSelectors).filter jsTruthy
    [ "        // Try selectors with fallbacks",
      "        const selectors = " ++ jsonStringifyStringArray allSelectors ++ ";",
      "        let elements = null;",
      "        ",
      "        for (const selector of selectors) \x7b",
      "            try \x7b",
      "                elements = document.querySelectorAll(selector);",
      "                if (elements.length > 0) \x7b",
      "                    if (DEBUG) console.log(`Found $\x7belements.length\x7d elements with selector: $\x7bselector\x7d`);",
      "                    break;",
      "                \x7d",
      "            \x7d catch (e) \x7b",
      "                console.warn(`Invalid selector: $\x7bselector\x7d`);",
      "            \x7d",
      "        \x7d" ]
  else
    [ "        // Select target elements",
      "        const elements = document.querySelectorAll('" ++ config.targetSelector ++ "');" ]

/-- The array of lines pushed by `generateScript`
(src/unnamed/part_000 lines 676-915), in push order. -/
def scriptLines (config : Config) : List String :=
  let features := config.features
  let fn := functionNameFromScriptName config.scriptName
  [ templates.header config.scriptDescription (enabledFeaturesList features), "" ]
    ++ [ "// Main function with descriptive name",
         "function " ++ fn ++ "() \x7b",
         "    'use strict';",
         "    " ]
    ++ (if features.preventDuplicates then [indent templates.preventDuplicates 1, "    "] else [])
    ++ (if features.debouncing then
          [indent templates.debouncing 1, "    ", "    if (!shouldExecute()) return;", "    "]
        else [])
    ++ (if features.debugMode then
          ["    const DEBUG = true;", "    if (DEBUG) console.log('Script executing...');", "    "]
        else [])
    ++ (if features.consoleLogging then [indent templates.consoleLogging 1, "    "] else [])
    ++ (if features.elementCaching then [indent templates.elementCaching 1, "    "] else [])
    ++ (if features.vdpDetection then [indent templates.vdpDetection 1, "    "] else [])
    ++ (if features.srpDetection then [indent templates.srpDetection 1, "    "] else [])
    ++ (if features.customPageDetection then [indent templates.customPageDetection 1, "    "] else [])
    ++ (if features.widgetLoader then [indent templates.widgetLoader 1, "    "] else [])
    ++ (if features.asyncLoading then [indent templates.asyncLoading 1, "    "] else [])
    ++ (if features.fallbackMechanisms then [indent templates.fallbackMechanisms 1, "    "] else [])
    ++ (if features.elementHighlighting then [indent templates.elementHighlighting 1, "    "] else [])
    ++ [ "    /**",
         "     * Apply modifications to target elements",
         "     */",
         "    function applyModifications() \x7b" ]
    ++ selectorBlock config
    ++ [ "        ",
         "        if (!elements || elements.length === 0) \x7b",
         "            console.warn('No elements found for selector: " ++ config.targetSelector ++ "');",
         "            return;",
         "        \x7d",
         "        " ]
    ++ [ "        // Apply modifications to each element",
         "        elements.forEach((element, index) => \x7b",
         "            try \x7b" ]
    ++ [ indent (generateActionCode config.actionType config.actionOptions) 4 ]
    ++ [ "                ",
         "                if (DEBUG) console.log(`Modified element $\x7bindex + 1\x7d/$\x7belements.length\x7d`);",
         "            \x7d catch (error) \x7b",
         "                console.error(`Failed to modify element $\x7bindex\x7d:`, error);",
         "            \x7d",
         "        \x7d);",
         "    \x7d",
         "    " ]
    ++ (if config.waitForElement then
          [ indent (templates.waitForElement config.targetSelector 10000) 1,
            "    ",
            "    // Wait for element and apply modifications",
            "    waitForElement('" ++ config.targetSelector ++ "')",
            "        .then(() => applyModifications())",
            "        .catch(error => console.error('Element wait failed:', error));" ]
        else if features.errorHandling then
          [ indent templates.errorHandling 1 ]
        else
          [ "    // Execute modifications", "    applyModifications();" ])
    ++ (if features.mutationObserver then ["    ", indent templates.mutationObserver 1] else [])
    ++ (if features.intervalMonitoring then ["    ", indent templates.intervalMonitoring 1] else [])
    ++ (if features.urlChangeMonitoring then ["    ", indent templates.urlChangeMonitoring 1] else [])
    ++ (if features.resourceCleanup then ["    ", indent templates.resourceCleanup 1] else [])
    ++ [ "\x7d", "" ]
    ++ [ "// Self-executing wrapper with DOM ready checks",
         "(function() \x7b",
         "    'use strict';" ]
    ++ (if features.spaFriendly then [indent templates.spaNavigation 1, "    "] else [])
    ++ (if features.cleanup then [indent templates.cleanup 1, "    "] else [])
    ++ [ "    const mainFunction = " ++ fn ++ ";", "    " ]
    ++ (if features.domReady then [indent templates.domReady 1]
        else ["    // Execute immediately", "    mainFunction();"])
    ++ [ "\x7d)();" ]

/-- The `generateScript` method: the pushed lines joined with newlines. -/
def generateScript (config : Config) : String :=
  String.intercalate "\n" (scriptLines config)

/-- Result of `validateConfig`: the error list plus the derived flag. -/
structure Validation where
  valid : Bool
  errors : List String
deriving DecidableEq, Repr

/-- The `validateConfig` method.  Browser selector validation
(`document.querySelector` inside `try`) is abstracted as the `cssValid`
oracle parameter: `cssValid s = false` models the call throwing. -/
def validateConfig (cssValid : String → Bool) (config : Config) : Validation :=
  let errors :=
    (if ¬ jsTruthy config.scriptName then ["Script name is required"] else [])
      ++ (if ¬ jsTruthy config.targetSelector then ["Target selector is required"] else [])
      ++ (if ¬ jsTruthy config.actionType then ["Action type is required"] else [])
      ++ (if cssValid config.targetSelector then [] else ["Invalid CSS selector"])
  { valid := errors = [], errors := errors }

/-- The record handed to `historyManager.saveScript` by `generateAndSave`. -/
structure ScriptData where
  name : String
  description : String
  code : String
  config : Config
  features : List String
  actionType : String
  version : String
deriving DecidableEq, Repr

/-- The `generateAndSave` method: validation, generation, then the save
call on the external history manager (modelled by the `save` parameter);
the thrown `Error` becomes `Except.error` carrying the joined message. -/
def generateAndSave {σ : Type} (cssValid : String → Bool) (save : ScriptData → σ)
    (config : Config) : Except String (String × σ) :=
  let validation := validateConfig cssValid config
  if validation.valid then
    let code := generateScript config
    let scriptData : ScriptData :=
      { name := config.scriptName
        description := config.scriptDescription
        code := code
        config := config
        features := enabledFeaturesList config.features
        actionType := config.actionType
        version := "V1" }
    Except.ok (code, save scriptData)
  else
    Except.error (String.intercalate ", " validation.errors)

end ScriptBuilder

namespace ScriptBuilder

/-- Modelled from the source fragment `templates.preventDuplicates`: the
guard reads the global `window.__scriptExecuted` flag; when it is already
set the wrapped function returns at once, otherwise it sets the flag and
the rest of the body runs.  The result is the flag state after the run
paired with whether the body was reached. -/
def runDuplicateGuard (scriptExecuted : Bool) : Bool × Bool :=
  if scriptExecuted then (scriptExecuted, false) else (true, true)

end ScriptBuilder

namespace HistoryManager

/-- A stored script record as the history list manipulates it; the sort
comparators read only `timestamp` and `name`. -/
structure StoredScript where
  id : Nat
  name : String
  timestamp : Int
  code : String
deriving DecidableEq, Repr

/-- Contents of an array after `arr.sort(cmp)` for the four comparators of
`sortScripts`.  `Array.prototype.sort` with a consistent comparator
produces some ordering of the same elements; it is modelled with
`List.mergeSort` over the corresponding boolean relation
(`localeCompare` modelled as code-point string order). -/
def jsSortBy (key : String) (l : List StoredScript) : List StoredScript :=
  if key = "date-desc" then l.mergeSort (fun a b => b.timestamp ≤ a.timestamp)
  else if key = "date-asc" then l.mergeSort (fun a b => a.timestamp ≤ b.timestamp)
  else if key = "name-asc" then l.mergeSort (fun a b => a.name ≤ b.name)
  else if key = "name-desc" then l.mergeSort (fun a b => b.name ≤ a.name)
  else l

/-- The `sortScripts` method (src/public/history.js lines 280-295).  The
source first copies its argument (`const sorted = [...scripts]`) and sorts
the copy in place, so the call leaves the caller's array untouched; the
first component is the caller's array after the call, the second the
returned array. -/
def sortScripts (scripts : List StoredScript) (sortBy : String) :
    List StoredScript × List StoredScript :=
  let sorted := scripts
  (scripts, jsSortBy sortBy sorted)

end HistoryManager

namespace UtilsJs

/-- The `storage.get` helper (src/unnamed/part_001 lines 372-380): the
backing store maps keys to the raw strings held by `localStorage`;
`parse` models `JSON.parse` (`none` models a thrown `SyntaxError`, which
the `catch` turns into `null`).  `none` in the result models `null`. -/
def storage.get {α : Type} (parse : String → Option α)
    (store : String → Option String) (key : String) : Option α :=
  match store key with
  | none => none
  | some item => if jsTruthy item then parse item else none

/-- The `storage.set` helper (src/unnamed/part_001 lines 382-390):
`stringify` models `JSON.stringify`; the updated store is returned with
the `true` success flag (quota errors are outside the model). -/
def storage.set {α : Type} (stringify : α → String)
    (store : String → Option String) (key : String) (value : α) :
    (String → Option String) × Bool :=
  (fun k => if k = key then some (stringify value) else store k, true)

end UtilsJs

namespace AppJs

/-! ### Configuration gathering and restoring

`gatherConfiguration` (src/public/app.js lines 1108-1178) reads the form
state; `restoreScriptToEditor` (src/unnamed/part_001 lines 182-235) writes
a saved configuration back into it.  The DOM is modelled as a `UIState`:
total maps for input `value`s and checkbox `checked` flags, the active
selector tab, the identifiers of the inputs currently inside the
`#actionOptions` container, and the text of the `#generatedSelector`
element.  An input element exists when its id is one of the fixed ids of
the static page or lives in the container; `setInputValue`/`getInputValue`
mirror the `getElementById` null-checks of the form helpers.  The
checkbox ids (features, `waitForElement`, `multipleElements`) are all in
the static markup, so the checkbox helpers carry no existence check. -/

/-- Form state touched by gather/restore. -/
structure UIState where
  inputs : String → String
  checks : String → Bool
  activeTab : Option String
  optionIds : List String
  generatedSelectorText : String

/-- Ids of the always-present inputs read or written by
gather/restore. -/
def baseInputIds : List String :=
  ["scriptName", "scriptDescription", "targetSelector", "xpathSelector",
   "fallbackSelectors", "actionType"]

/-- Whether `document.getElementById(id)` finds an input element. -/
def inputExists (st : UIState) (id : String) : Bool :=
  id ∈ baseInputIds ∨ id ∈ st.optionIds

/-- The `setInputValue` helper of src/unnamed/part_001: a no-op when the
element does not exist. -/
def setInputValue (st : UIState) (id v : String) : UIState :=
  if inputExists st id then
    { st with inputs := fun i => if i = id then v else st.inputs i }
  else st

/-- The `getInputValue` helper: empty string when the element does not
exist. -/
def getInputValue (st : UIState) (id : String) : String :=
  if inputExists st id then st.inputs id else ""

/-- The `setCheckboxValue` helper. -/
def setCheckboxValue (st : UIState) (id : String) (checked : Bool) : UIState :=
  { st with checks := fun i => if i = id then checked else st.checks i }

/-- The `getCheckboxValue` helper. -/
def getCheckboxValue (st : UIState) (id : String) : Bool :=
  st.checks id

/-- The configuration record returned by `gatherConfiguration`.
`actionOptions` keeps the container inputs as an ordered id/value list
(the source stores them as object entries in iteration order). -/
structure GatheredConfig where
  scriptName : String := ""
  scriptDescription : String := ""
  targetSelector : String := ""
  selectorType : String := "css"
  fallbackSelectors : List String := []
  waitForElement : Bool := false
  multipleElements : Bool := false
  actionType : String := ""
  actionOptions : List (String × String) := []
  features : ScriptBuilder.Features := {}
deriving DecidableEq, Repr

/-- The `gatherConfiguration` function of src/public/app.js. -/
def gatherConfiguration (st : UIState) : GatheredConfig :=
  let actionType := getInputValue st "actionType"
  let actionOptions := st.optionIds.map (fun id => (id, st.inputs id))
  let tabPair : String × String :=
    match st.activeTab with
    | some tab =>
      if tab = "css" then ("css", getInputValue st "targetSelector")
      else if tab = "xpath" then ("xpath", getInputValue st "xpathSelector")
      else if tab = "advanced" then
        ("advanced",
          if st.generatedSelectorText ≠ "No conditions added" then st.generatedSelectorText else "")
      else (tab, "")
    | none => ("css", getInputValue st "targetSelector")
  { scriptName := getInputValue st "scriptName"
    scriptDescription := getInputValue st "scriptDescription"
    targetSelector := tabPair.2
    selectorType := tabPair.1
    fallbackSelectors :=
      (jsSplit '\n' (getInputValue st "fallbackSelectors")).filter (fun s => jsTruthy (jsTrim s))
    waitForElement := getCheckboxValue st "waitForElement"
    multipleElements := getCheckboxValue st "multipleElements"
    actionType := actionType
    actionOptions := actionOptions
    features :=
      { spaFriendly := getCheckboxValue st "spaFriendly"
        domReady := getCheckboxValue st "domReady"
        errorHandling := getCheckboxValue st "errorHandling"
        preventDuplicates := getCheckboxValue st "preventDuplicates"
        debouncing := getCheckboxValue st "debouncing"
        elementCaching := getCheckboxValue st "elementCaching"
        resourceCleanup := getCheckboxValue st "resourceCleanup"
        mutationObserver := getCheckboxValue st "mutationObserver"
        intervalMonitoring := getCheckboxValue st "intervalMonitoring"
        urlChangeMonitoring := getCheckboxValue st "urlChangeMonitoring"
        debugMode := getCheckboxValue st "debugMode"
        consoleLogging := getCheckboxValue st "consoleLogging"
        elementHighlighting := getCheckboxValue st "elementHighlighting"
        widgetLoader := getCheckboxValue st "widgetLoader"
        asyncLoading := getCheckboxValue st "asyncLoading"
        fallbackMechanisms := getCheckboxValue st "fallbackMechanisms"
        vdpDetection := getCheckboxValue st "vdpDetection"
        srpDetection := getCheckboxValue st "srpDetection"
        customPageDetection := getCheckboxValue st "customPageDetection"
        cleanup := getCheckboxValue st "cleanup" } }

/-- The feature-checkbox writes of `restoreScriptToEditor`
(`Object.keys(config.features).forEach(...)`). -/
def restoreFeatures (f : ScriptBuilder.Features) (st : UIState) : UIState :=
  let s1 := setCheckboxValue st "spaFriendly" f.spaFriendly
  let s2 := setCheckboxValue s1 "domReady" f.domReady
  let s3 := setCheckboxValue s2 "errorHandling" f.errorHandling
  let s4 := setCheckboxValue s3 "preventDuplicates" f.preventDuplicates
  let s5 := setCheckboxValue s4 "debouncing" f.debouncing
  let s6 := setCheckboxValue s5 "elementCaching" f.elementCaching
  let s7 := setCheckboxValue s6 "resourceCleanup" f.resourceCleanup
  let s8 := setCheckboxValue s7 "mutationObserver" f.mutationObserver
  let s9 := setCheckboxValue s8 "intervalMonitoring" f.intervalMonitoring
  let s10 := setCheckboxValue s9 "urlChangeMonitoring" f.urlChangeMonitoring
  let s11 := setCheckboxValue s10 "debugMode" f.debugMode
  let s12 := setCheckboxValue s11 "consoleLogging" f.consoleLogging
  let s13 := setCheckboxValue s12 "elementHighlighting" f.elementHighlighting
  let s14 := setCheckboxValue s13 "widgetLoader" f.widgetLoader
  let s15 := setCheckboxValue s14 "asyncLoading" f.asyncLoading
  let s16 := setCheckboxValue s15 "fallbackMechanisms" f.fallbackMechanisms
  let s17 := setCheckboxValue s16 "vdpDetection" f.vdpDetection
  let s18 := setCheckboxValue s17 "srpDetection" f.srpDetection
  let s19 := setCheckboxValue s18 "customPageDetection" f.customPageDetection
  setCheckboxValue s19 "cleanup" f.cleanup

/-- The `restoreScriptToEditor` function of src/unnamed/part_001, for a
record carrying a configuration.  The `change` event dispatched on the
`actionType` select runs `updateActionOptions` (src/public/app.js lines
136-160), which replaces the contents of the `#actionOptions` container
with the HTML catalogued for the action type; `optionIdsFor` abstracts
that catalog (which input ids the markup for an action type contains) and
`optionDefault` the default `value` attributes of the fresh inputs.  The
option values from `config.actionOptions` are then written by the
deferred `setTimeout` callback, after the synchronous feature loop. -/
def restoreScriptToEditor (optionIdsFor : String → List String)
    (optionDefault : String → String) (config : GatheredConfig) (st : UIState) : UIState :=
  let s1 := setInputValue st "scriptName" config.scriptName
  let s2 := setInputValue s1 "scriptDescription" config.scriptDescription
  let s3 := setInputValue s2 "targetSelector" config.targetSelector
  let s4 := setInputValue s3 "fallbackSelectors" (jsJoin '\n' config.fallbackSelectors)
  let s5 := setCheckboxValue s4 "waitForElement" config.waitForElement
  let s6 := setInputValue s5 "actionType" config.actionType
  let s7 : UIState :=
    { s6 with
      optionIds := optionIdsFor config.actionType
      inputs := fun i =>
        if i ∈ optionIdsFor config.actionType then optionDefault i else s6.inputs i }
  let s8 := restoreFeatures config.features s7
  config.actionOptions.foldl (fun s kv => setInputValue s kv.1 kv.2) s8

end AppJs

/-! ### Concrete instances used by the claim checks -/

/-- A configuration whose action is `custom` with empty code but whose
name, selector and action kind are all present. -/
def cfgCustomNoCode : ScriptBuilder.Config :=
  { scriptName := "Test Script", targetSelector := "#btn", actionType := "custom" }

/-- The end-to-end example configuration of the specification. -/
def cfgBanner : ScriptBuilder.Config :=
  { scriptName := "Add Banner"
    targetSelector := "#hero"
    actionType := "add-element"
    actionOptions := { elementType := "div", position := "afterend", elementText := "Hello" }
    features := { domReady := true, errorHandling := true } }

/-- A duplicate-prevention configuration with the `modify-text` action. -/
def cfgDup1 : ScriptBuilder.Config :=
  { scriptName := "A", targetSelector := "#x", actionType := "modify-text"
    features := { preventDuplicates := true } }

/-- The same configuration with the `custom` action kind instead. -/
def cfgDup2 : ScriptBuilder.Config :=
  { cfgDup1 with actionType := "custom" }

/-- A pristine form state with the CSS tab active. -/
def uiStart : AppJs.UIState :=
  { inputs := fun _ => "", checks := fun _ => false, activeTab := some "css",
    optionIds := [], generatedSelectorText := "" }

/-- A saved configuration that used the XPath selector kind. -/
def cfgXpathSaved : AppJs.GatheredConfig :=
  { scriptName := "S", targetSelector := "//div", selectorType := "xpath",
    actionType := "custom" }

/-! ### Helper lemmas -/

theorem chSplit_of_not_mem {sep : Char} {x : List Char} (h : sep ∉ x) :
    chSplit sep x = [x] := by
  induction x with
  | nil => rfl
  | cons c rest ih =>
    simp only [List.mem_cons, not_or] at h
    have hcs : c ≠ sep := Ne.symm h.1
    simp [chSplit, ih h.2, hcs]

theorem chSplit_append {sep : Char} {x : List Char} (ys : List Char) (h : sep ∉ x) :
    chSplit sep (x ++ sep :: ys) = x :: chSplit sep ys := by
  induction x with
  | nil => simp [chSplit]
  | cons c rest ih =>
    simp only [List.mem_cons, not_or] at h
    have hcs : c ≠ sep := Ne.symm h.1
    simp only [List.cons_append, chSplit, if_neg hcs]
    rw [show rest.append (sep :: ys) = rest ++ sep :: ys from rfl, ih h.2]

theorem chSplit_chJoin {sep : Char} {l : List (List Char)} (hne : l ≠ [])
    (h : ∀ x ∈ l, sep ∉ x) : chSplit sep (chJoin sep l) = l := by
  induction l with
  | nil => exact absurd rfl hne
  | cons x rest ih =>
    cases rest with
    | nil => exact chSplit_of_not_mem (h x (List.mem_cons_self x []))
    | cons y t =>
      have hx : sep ∉ x := h x (by simp)
      have hrest : ∀ z ∈ y :: t, sep ∉ z := fun z hz => h z (List.mem_cons_of_mem x hz)
      simp only [chJoin, chSplit_append _ hx, ih (by simp) hrest]

theorem str_mk_data (s : String) : String.mk s.data = s := rfl

theorem jsSplit_jsJoin {sep : Char} {l : List String} (hne : l ≠ [])
    (h : ∀ s ∈ l, sep ∉ s.data) : jsSplit sep (jsJoin sep l) = l := by
  unfold jsSplit jsJoin
  have hd : (String.mk (chJoin sep (l.map String.data))).data
      = chJoin sep (l.map String.data) := rfl
  rw [hd, chSplit_chJoin (by simpa using hne)
    (by intro x hx; obtain ⟨s, hs, rfl⟩ := List.mem_map.mp hx; exact h s hs)]
  rw [List.map_map]
  have hid : String.mk ∘ String.data = id := funext fun s => rfl
  rw [hid, List.map_id]

namespace AppJs

theorem setInput_checks (st : UIState) (id v : String) :
    (setInputValue st id v).checks = st.checks := by
  unfold setInputValue; split <;> rfl

theorem setInput_optionIds (st : UIState) (id v : String) :
    (setInputValue st id v).optionIds = st.optionIds := by
  unfold setInputValue; split <;> rfl

theorem setInput_activeTab (st : UIState) (id v : String) :
    (setInputValue st id v).activeTab = st.activeTab := by
  unfold setInputValue; split <;> rfl

theorem setInput_generated (st : UIState) (id v : String) :
    (setInputValue st id v).generatedSelectorText = st.generatedSelectorText := by
  unfold setInputValue; split <;> rfl

theorem setInput_inputs_ne (st : UIState) (id v i : String) (h : i ≠ id) :
    (setInputValue st id v).inputs i = st.inputs i := by
  unfold setInputValue; split
  · simp [h]
  · rfl

theorem setInput_inputs_self (st : UIState) (id v : String)
    (h : inputExists st id = true) : (setInputValue st id v).inputs id = v := by
  unfold setInputValue
  rw [if_pos h]
  simp

theorem inputExists_setInput (st : UIState) (id v k : String) :
    inputExists (setInputValue st id v) k = inputExists st k := by
  unfold inputExists
  rw [setInput_optionIds]

theorem setCheck_inputs (st : UIState) (id : String) (b : Bool) :
    (setCheckboxValue st id b).inputs = st.inputs := rfl

theorem setCheck_optionIds (st : UIState) (id : String) (b : Bool) :
    (setCheckboxValue st id b).optionIds = st.optionIds := rfl

theorem setCheck_activeTab (st : UIState) (id : String) (b : Bool) :
    (setCheckboxValue st id b).activeTab = st.activeTab := rfl

theorem setCheck_generated (st : UIState) (id : String) (b : Bool) :
    (setCheckboxValue st id b).generatedSelectorText = st.generatedSelectorText := rfl

theorem restoreFeatures_inputs (f : ScriptBuilder.Features) (st : UIState) :
    (restoreFeatures f st).inputs = st.inputs := by
  unfold restoreFeatures
  simp only [setCheck_inputs]

theorem restoreFeatures_optionIds (f : ScriptBuilder.Features) (st : UIState) :
    (restoreFeatures f st).optionIds = st.optionIds := by
  unfold restoreFeatures
  simp only [setCheck_optionIds]

theorem restoreFeatures_activeTab (f : ScriptBuilder.Features) (st : UIState) :
    (restoreFeatures f st).activeTab = st.activeTab := by
  unfold restoreFeatures
  simp only [setCheck_activeTab]

theorem restoreFeatures_generated (f : ScriptBuilder.Features) (st : UIState) :
    (restoreFeatures f st).generatedSelectorText = st.generatedSelectorText := by
  unfold restoreFeatures
  simp only [setCheck_generated]

theorem foldSet_checks (opts : List (String × String)) (st : UIState) :
    (opts.foldl (fun s kv => setInputValue s kv.1 kv.2) st).checks = st.checks := by
  induction opts generalizing st with
  | nil => rfl
  | cons kv rest ih => simp only [List.foldl_cons, ih, setInput_checks]

theorem foldSet_optionIds (opts : List (String × String)) (st : UIState) :
    (opts.foldl (fun s kv => setInputValue s kv.1 kv.2) st).optionIds = st.optionIds := by
  induction opts generalizing st with
  | nil => rfl
  | cons kv rest ih => simp only [List.foldl_cons, ih, setInput_optionIds]

theorem foldSet_activeTab (opts : List (String × String)) (st : UIState) :
    (opts.foldl (fun s kv => setInputValue s kv.1 kv.2) st).activeTab = st.activeTab := by
  induction opts generalizing st with
  | nil => rfl
  | cons kv rest ih => simp only [List.foldl_cons, ih, setInput_activeTab]

theorem foldSet_generated (opts : List (String × String)) (st : UIState) :
    (opts.foldl (fun s kv => setInputValue s kv.1 kv.2) st).generatedSelectorText
      = st.generatedSelectorText := by
  induction opts generalizing st with
  | nil => rfl
  | cons kv rest ih => simp only [List.foldl_cons, ih, setInput_generated]

theorem foldSet_inputs_notMem (opts : List (String × String)) (st : UIState) (id : String)
    (h : id ∉ opts.map Prod.fst) :
    (opts.foldl (fun s kv => setInputValue s kv.1 kv.2) st).inputs id = st.inputs id := by
  induction opts generalizing st with
  | nil => rfl
  | cons kv rest ih =>
    simp only [List.map_cons, List.mem_cons, not_or] at h
    simp only [List.foldl_cons]
    rw [ih _ h.2, setInput_inputs_ne _ _ _ _ h.1]

theorem foldSet_assoc (opts : List (String × String)) (st : UIState)
    (hnd : (opts.map Prod.fst).Nodup)
    (hex : ∀ k ∈ opts.map Prod.fst, inputExists st k = true) :
    (opts.map Prod.fst).map
        (fun k => (k, (opts.foldl (fun s kv => setInputValue s kv.1 kv.2) st).inputs k))
      = opts := by
  induction opts generalizing st with
  | nil => rfl
  | cons kv rest ih =>
    obtain ⟨k, v⟩ := kv
    simp only [List.map_cons, List.nodup_cons] at hnd
    simp only [List.map_cons, List.foldl_cons]
    have h1 : (List.foldl (fun s kv => setInputValue s kv.1 kv.2)
        (setInputValue st k v) rest).inputs k = v := by
      rw [foldSet_inputs_notMem _ _ _ hnd.1,
        setInput_inputs_self _ _ _ (hex k (by simp))]
    have hex2 : ∀ j ∈ rest.map Prod.fst, inputExists (setInputValue st k v) j = true := by
      intro j hj
      rw [inputExists_setInput]
      exact hex j (by simp [hj])
    rw [h1, ih (setInputValue st k v) hnd.2 hex2]

end AppJs

namespace AppJs

theorem restoreFeatures_checks (f : ScriptBuilder.Features) (s : UIState) :
    (restoreFeatures f s).checks = fun i =>
      if i = "cleanup" then f.cleanup
      else if i = "customPageDetection" then f.customPageDetection
      else if i = "srpDetection" then f.srpDetection
      else if i = "vdpDetection" then f.vdpDetection
      else if i = "fallbackMechanisms" then f.fallbackMechanisms
      else if i = "asyncLoading" then f.asyncLoading
      else if i = "widgetLoader" then f.widgetLoader
      else if i = "elementHighlighting" then f.elementHighlighting
      else if i = "consoleLogging" then f.consoleLogging
      else if i = "debugMode" then f.debugMode
      else if i = "urlChangeMonitoring" then f.urlChangeMonitoring
      else if i = "intervalMonitoring" then f.intervalMonitoring
      else if i = "mutationObserver" then f.mutationObserver
      else if i = "resourceCleanup" then f.resourceCleanup
      else if i = "elementCaching" then f.elementCaching
      else if i = "debouncing" then f.debouncing
      else if i = "preventDuplicates" then f.preventDuplicates
      else if i = "errorHandling" then f.errorHandling
      else if i = "domReady" then f.domReady
      else if i = "spaFriendly" then f.spaFriendly
      else s.checks i := by
  funext i
  simp only [restoreFeatures, setCheckboxValue]

theorem restore_activeTab (ids : String → List String) (dflt : String → String)
    (cfg : GatheredConfig) (st : UIState) :
    (restoreScriptToEditor ids dflt cfg st).activeTab = st.activeTab := by
  unfold restoreScriptToEditor
  simp only [foldSet_activeTab, restoreFeatures_activeTab, setInput_activeTab,
    setCheck_activeTab]

theorem restore_generated (ids : String → List String) (dflt : String → String)
    (cfg : GatheredConfig) (st : UIState) :
    (restoreScriptToEditor ids dflt cfg st).generatedSelectorText
      = st.generatedSelectorText := by
  unfold restoreScriptToEditor
  simp only [foldSet_generated, restoreFeatures_generated, setInput_generated,
    setCheck_generated]

theorem restore_optionIds (ids : String → List String) (dflt : String → String)
    (cfg : GatheredConfig) (st : UIState) :
    (restoreScriptToEditor ids dflt cfg st).optionIds = ids cfg.actionType := by
  unfold restoreScriptToEditor
  simp only [foldSet_optionIds, restoreFeatures_optionIds]

theorem restore_checks (ids : String → List String) (dflt : String → String)
    (cfg : GatheredConfig) (st : UIState) :
    (restoreScriptToEditor ids dflt cfg st).checks
      = (restoreFeatures cfg.features
          (setCheckboxValue st "waitForElement" cfg.waitForElement)).checks := by
  unfold restoreScriptToEditor
  simp only [foldSet_checks, restoreFeatures_checks, setInput_checks, setCheckboxValue]

theorem setInput_inputs_congr (s t : UIState) (hin : s.inputs = t.inputs)
    (hop : s.optionIds = t.optionIds) (id v : String) :
    (setInputValue s id v).inputs = (setInputValue t id v).inputs := by
  unfold setInputValue inputExists
  rw [hop, hin]
  split <;> first | rfl | exact hin

/-- Reading a base input of the restored state that is not an
action-option key yields the value the restore sequence wrote (or kept). -/
theorem restore_inputs_base (ids : String → List String) (dflt : String → String)
    (cfg : GatheredConfig) (st : UIState) (i : String)
    (hkeys : ids cfg.actionType = cfg.actionOptions.map Prod.fst)
    (hdisj : ∀ k ∈ cfg.actionOptions.map Prod.fst, k ∉ baseInputIds)
    (hbase : i ∈ baseInputIds) :
    (restoreScriptToEditor ids dflt cfg st).inputs i
      = (setInputValue (setInputValue (setInputValue (setInputValue (setInputValue st
          "scriptName" cfg.scriptName) "scriptDescription" cfg.scriptDescription)
          "targetSelector" cfg.targetSelector)
          "fallbackSelectors" (jsJoin '\n' cfg.fallbackSelectors))
          "actionType" cfg.actionType).inputs i := by
  have hnk : i ∉ cfg.actionOptions.map Prod.fst := fun hm => hdisj i hm hbase
  have hni : i ∉ ids cfg.actionType := by rw [hkeys]; exact hnk
  unfold restoreScriptToEditor
  rw [foldSet_inputs_notMem _ _ _ hnk, restoreFeatures_inputs]
  show (fun j => if j ∈ ids cfg.actionType then dflt j else _) i = _
  simp only [if_neg hni]
  exact congrFun
    (setInput_inputs_congr _ _ (setCheck_inputs _ _ _) (setCheck_optionIds _ _ _) _ _) i

end AppJs

namespace AppJs

theorem restore_actionOptions (ids : String → List String) (dflt : String → String)
    (cfg : GatheredConfig) (st : UIState)
    (hkeys : ids cfg.actionType = cfg.actionOptions.map Prod.fst)
    (hnd : (cfg.actionOptions.map Prod.fst).Nodup) :
    (restoreScriptToEditor ids dflt cfg st).optionIds.map
        (fun k => (k, (restoreScriptToEditor ids dflt cfg st).inputs k))
      = cfg.actionOptions := by
  rw [restore_optionIds, hkeys]
  unfold restoreScriptToEditor
  apply foldSet_assoc _ _ hnd
  intro k hk
  unfold inputExists
  rw [restoreFeatures_optionIds]
  show decide (k ∈ baseInputIds ∨ k ∈ ids cfg.actionType) = true
  rw [hkeys]
  simp [hk]

end AppJs

/-! ### Claim theorems -/

/-- C1: the identifier sanitizer maps `"My Script!"` to `My_Script` and
`""` to the default identifier as claimed, but the claimed escapes for a
leading digit are undone by the final trim: `"123"` sanitizes to `"123"`,
which begins with a digit — the generated `function 123() { ... }` header
is not a valid JavaScript program, so the code diverges from the claim at
this input. -/
theorem C1_functionNameFromScriptName_eval :
    ScriptBuilder.functionNameFromScriptName "My Script!" = "My_Script"
    ∧ ScriptBuilder.functionNameFromScriptName "" = "mainFunction"
    ∧ ScriptBuilder.functionNameFromScriptName "123" = "123"
    ∧ (ScriptBuilder.functionNameFromScriptName "123").data.headD ' ' = '1' := by
  refine ⟨?_, ?_, ?_, ?_⟩ <;> decide

/-- C2 counterexample: on `[{class,equals,"foo"}, {id,exists,""}]` the
synthesizer of src/public/app.js emits `[class="foo"][id]`, not the
claimed `.foo[id]`. -/
theorem C2_counterexample :
    AppJs.updateSelectorPreview [⟨"class", "equals", "foo"⟩, ⟨"id", "exists", ""⟩]
        = "[class=\"foo\"][id]"
    ∧ AppJs.updateSelectorPreview [⟨"class", "equals", "foo"⟩, ⟨"id", "exists", ""⟩]
        ≠ ".foo[id]" := by
  refine ⟨?_, ?_⟩ <;> decide

/-- C2 (amended): the class condition maps equals to `[class="v"]` (not
`.v`), and contains, starts-with, ends-with, exists and not-exists to
`[class*="v"]`, `[class^="v"]`, `[class$="v"]`, `[class]` and
`:not([class])` respectively; the example list therefore synthesizes
`[class="foo"][id]`. -/
theorem C2_class_fragments (v : String) (hv : jsTruthy v = true) :
    AppJs.updateSelectorPreview [⟨"class", "contains", v⟩] = "[class*=\"" ++ v ++ "\"]"
    ∧ AppJs.updateSelectorPreview [⟨"class", "equals", v⟩] = "[class=\"" ++ v ++ "\"]"
    ∧ AppJs.updateSelectorPreview [⟨"class", "starts-with", v⟩] = "[class^=\"" ++ v ++ "\"]"
    ∧ AppJs.updateSelectorPreview [⟨"class", "ends-with", v⟩] = "[class$=\"" ++ v ++ "\"]"
    ∧ AppJs.updateSelectorPreview [⟨"class", "exists", ""⟩] = "[class]"
    ∧ AppJs.updateSelectorPreview [⟨"class", "not-exists", ""⟩] = ":not([class])"
    ∧ AppJs.updateSelectorPreview [⟨"class", "equals", "foo"⟩, ⟨"id", "exists", ""⟩]
        = "[class=\"foo\"][id]" := by
  refine ⟨?_, ?_, ?_, ?_, by decide, by decide, by decide⟩ <;>
    simp [AppJs.updateSelectorPreview, AppJs.rowFragment, AppJs.classFragment, hv,
      String.join]

/-- C2 witness: the amended class mapping at `v = "foo"`. -/
theorem C2_class_fragments_witness :
    jsTruthy "foo" = true
    ∧ AppJs.updateSelectorPreview [⟨"class", "equals", "foo"⟩] = "[class=\"foo\"]" :=
  ⟨by decide, (C2_class_fragments "foo" (by decide)).2.1⟩

/-- C3: for the text condition `{text, contains, "Buy Now"}` the cited
synthesizer emits the jQuery-only pseudo-selector `:contains("Buy Now")`,
not the claimed `[data-text-contains="Buy Now"]` marker; the emitted
string is not a valid native selector and the same file hands the result
directly to `document.querySelectorAll`, so the code diverges from the
claim (the parallel engine in src/public/service-worker.js implements the
claimed marker). -/
theorem C3_text_condition_eval :
    AppJs.updateSelectorPreview [⟨"text", "contains", "Buy Now"⟩] = ":contains(\"Buy Now\")"
    ∧ AppJs.updateSelectorPreview [⟨"text", "contains", "Buy Now"⟩]
        ≠ "[data-text-contains=\"Buy Now\"]" := by
  refine ⟨?_, ?_⟩ <;> decide

/-- C6 counterexample: the code splits the condition value at every `=`
and keeps only the second segment, so on the value `"x=a=b"` (where a
split at the first `=` would give the value part `"a=b"`) the data
condition synthesizes `[data-x="a"]`, not `[data-x="a=b"]`. -/
theorem C6_counterexample :
    AppJs.updateSelectorPreview [⟨"data", "equals", "x=a=b"⟩] = "[data-x=\"a\"]"
    ∧ AppJs.updateSelectorPreview [⟨"data", "equals", "x=a=b"⟩] ≠ "[data-x=\"a=b\"]" := by
  refine ⟨?_, ?_⟩ <;> decide

/-- C6 (amended): a data or attribute condition value is split at every
`=`; the name part is the segment before the first `=` and the value part
is the segment between the first and the second `=` (anything after a
second `=` is dropped).  For kind data the name is prefixed with `data-`
unless already so prefixed.  When the value encodes no value part the
fragment is the plain existence selector `[name]` for every operator
except not-exists, which yields `:not([name])`. -/
theorem C6_data_attribute_fragments (value n v : String) (rest : List String) (op : String)
    (hop : op ∈ (["contains", "equals", "starts-with", "ends-with", "exists",
      "not-exists"] : List String)) :
    (jsSplit '=' value = n :: v :: rest →
      AppJs.rowFragment ⟨"data", op, value⟩
          = AppJs.attrOpFragment op (if n.startsWith "data-" then n else "data-" ++ n) v
        ∧ AppJs.rowFragment ⟨"attribute", op, value⟩ = AppJs.attrOpFragment op n v)
    ∧ (jsSplit '=' value = [n] → jsTruthy value = true →
      AppJs.rowFragment ⟨"data", op, value⟩
          = (if op = "not-exists"
              then ":not([" ++ (if n.startsWith "data-" then n else "data-" ++ n) ++ "])"
              else "[" ++ (if n.startsWith "data-" then n else "data-" ++ n) ++ "]")
        ∧ AppJs.rowFragment ⟨"attribute", op, value⟩
          = (if op = "not-exists" then ":not([" ++ n ++ "])" else "[" ++ n ++ "]")) := by
  simp only [List.mem_cons, List.not_mem_nil, or_false] at hop
  constructor
  · intro h2
    have hvne : value ≠ "" := by
      intro he
      rw [he] at h2
      simp [jsSplit, chSplit] at h2
    have hvt : jsTruthy value = true := by simp [jsTruthy, hvne]
    rcases hop with rfl | rfl | rfl | rfl | rfl | rfl <;>
      simp [AppJs.rowFragment, AppJs.dataFragment, AppJs.attributeFragment, h2, hvt]
  · intro h1 hvt
    have hvne : value ≠ "" := by simpa [jsTruthy] using hvt
    rcases hop with rfl | rfl | rfl | rfl | rfl | rfl <;>
      simp [AppJs.rowFragment, AppJs.dataFragment, AppJs.attributeFragment,
        AppJs.attrOpFragment, h1, hvt, hvne, jsTruthy]

/-- C6 witness: the amended split semantics at `"x=a"` with operator
contains. -/
theorem C6_data_attribute_fragments_witness :
    AppJs.rowFragment ⟨"data", "contains", "x=a"⟩
        = AppJs.attrOpFragment "contains"
            (if ("x" : String).startsWith "data-" then "x" else "data-" ++ "x") "a"
    ∧ AppJs.rowFragment ⟨"attribute", "contains", "x=a"⟩
        = AppJs.attrOpFragment "contains" "x" "a" :=
  (C6_data_attribute_fragments "x=a" "x" "a" [] "contains" (by decide)).1 (by decide)

/-- C9: `sortScripts` copies its argument before sorting, so the caller's
array is unchanged; the returned array is a permutation of the input, and
an unrecognized sort key returns the elements in their original order. -/
theorem C9_sortScripts_spec (scripts : List HistoryManager.StoredScript) (sortBy : String) :
    (HistoryManager.sortScripts scripts sortBy).1 = scripts
    ∧ ((HistoryManager.sortScripts scripts sortBy).2).Perm scripts
    ∧ (sortBy ≠ "date-desc" → sortBy ≠ "date-asc" → sortBy ≠ "name-asc" →
        sortBy ≠ "name-desc" → (HistoryManager.sortScripts scripts sortBy).2 = scripts) := by
  refine ⟨rfl, ?_, ?_⟩
  · unfold HistoryManager.sortScripts HistoryManager.jsSortBy
    split_ifs <;> first | exact List.mergeSort_perm _ _ | exact List.Perm.refl _
  · intro h1 h2 h3 h4
    unfold HistoryManager.sortScripts HistoryManager.jsSortBy
    simp [h1, h2, h3, h4]

/-- C9 witness: sorting two records by an unrecognized key. -/
theorem C9_sortScripts_spec_witness :
    (HistoryManager.sortScripts [⟨1, "b", 5, ""⟩, ⟨2, "a", 9, ""⟩] "unknown-key").1
        = [⟨1, "b", 5, ""⟩, ⟨2, "a", 9, ""⟩]
    ∧ (HistoryManager.sortScripts [⟨1, "b", 5, ""⟩, ⟨2, "a", 9, ""⟩] "unknown-key").2
        = [⟨1, "b", 5, ""⟩, ⟨2, "a", 9, ""⟩] :=
  ⟨(C9_sortScripts_spec [⟨1, "b", 5, ""⟩, ⟨2, "a", 9, ""⟩] "unknown-key").1,
   (C9_sortScripts_spec [⟨1, "b", 5, ""⟩, ⟨2, "a", 9, ""⟩] "unknown-key").2.2
     (by decide) (by decide) (by decide) (by decide)⟩

/-- C10: for a value that survives serialization (`parse` inverts
`stringify` on it and its encoding is non-empty, as with `JSON.parse` and
`JSON.stringify` on any JSON-serializable value), `storage.get` after
`storage.set` returns the value, and `storage.get` of an absent key
returns null (`none`) rather than raising. -/
theorem C10_storage_roundtrip {α : Type} (parse : String → Option α) (stringify : α → String)
    (store store2 : String → Option String) (key absentKey : String) (value : α)
    (hser : parse (stringify value) = some value)
    (hne : stringify value ≠ "")
    (habsent : store2 absentKey = none) :
    UtilsJs.storage.get parse (UtilsJs.storage.set stringify store key value).1 key
        = some value
    ∧ UtilsJs.storage.get parse store2 absentKey = none := by
  constructor
  · simp [UtilsJs.storage.get, UtilsJs.storage.set, jsTruthy, hne, hser]
  · simp [UtilsJs.storage.get, habsent]

/-- C10 witness: the boolean JSON codec at `true`, with an empty store. -/
theorem C10_storage_roundtrip_witness :
    UtilsJs.storage.get
        (fun s => if s = "true" then some true else if s = "false" then some false else none)
        (UtilsJs.storage.set (fun b => if b then "true" else "false")
          (fun _ => none) "k" true).1 "k" = some true
    ∧ UtilsJs.storage.get
        (fun s => if s = "true" then some true else if s = "false" then some false else none)
        (fun _ => none) "absent" = none :=
  C10_storage_roundtrip
    (fun s => if s = "true" then some true else if s = "false" then some false else none)
    (fun b => if b then "true" else "false") (fun _ => none) (fun _ => none)
    "k" "absent" true (by decide) (by decide) rfl

/-- C4 counterexample: a configuration with the `custom` action and empty
code (an absent action-specific required parameter per the claim) passes
validation, and `generateAndSave` proceeds to generate and save instead of
raising. -/
theorem C4_counterexample :
    cfgCustomNoCode.actionType = "custom"
    ∧ cfgCustomNoCode.actionOptions.customCode = ""
    ∧ (ScriptBuilder.validateConfig (fun _ => true) cfgCustomNoCode).valid = true
    ∧ (ScriptBuilder.generateAndSave (fun _ => true) (fun d => d) cfgCustomNoCode).isOk
        = true := by
  refine ⟨rfl, rfl, by decide, ?_⟩
  rfl

/-- C4 (amended): `validateConfig` checks only that the script name, the
target selector and the action kind are present and that the selector is
accepted by the browser's selector engine; action-specific parameters are
not validated.  Whenever one of the checked conditions fails,
`generateAndSave` raises the joined list of all violation messages and
neither generates script text nor saves a record. -/
theorem C4_validation_failure {σ : Type} (cssValid : String → Bool)
    (save : ScriptBuilder.ScriptData → σ) (config : ScriptBuilder.Config)
    (h : jsTruthy config.scriptName = false ∨ jsTruthy config.targetSelector = false
      ∨ jsTruthy config.actionType = false ∨ cssValid config.targetSelector = false) :
    (ScriptBuilder.validateConfig cssValid config).errors ≠ []
    ∧ ScriptBuilder.generateAndSave cssValid save config
        = Except.error
            (String.intercalate ", " (ScriptBuilder.validateConfig cssValid config).errors) := by
  have herr : (ScriptBuilder.validateConfig cssValid config).errors ≠ [] := by
    rcases h with h | h | h | h <;> simp [ScriptBuilder.validateConfig, h]
  have hvalid : (ScriptBuilder.validateConfig cssValid config).valid = false := by
    have hv : (ScriptBuilder.validateConfig cssValid config).valid
        = decide ((ScriptBuilder.validateConfig cssValid config).errors = []) := rfl
    rw [hv, decide_eq_false_iff_not]
    exact herr
  refine ⟨herr, ?_⟩
  unfold ScriptBuilder.generateAndSave
  rw [if_neg (by rw [hvalid]; exact Bool.false_ne_true)]

/-- C4 witness: the all-defaults configuration (every required field
missing) is rejected with the error message list. -/
theorem C4_validation_failure_witness :
    (ScriptBuilder.validateConfig (fun _ => true) {}).errors ≠ []
    ∧ ScriptBuilder.generateAndSave (fun _ => true) (fun d => d) ({} : ScriptBuilder.Config)
        = Except.error
            (String.intercalate ", " (ScriptBuilder.validateConfig (fun _ => true) {}).errors) :=
  C4_validation_failure (fun _ => true) (fun d => d) {} (Or.inl (by decide))

/-- C5: `generateScript` performs no clock or randomness reads — it is a
pure function of the configuration — so two calls with identical
configurations produce byte-identical source text (in particular there is
no timestamp or dealer/session id in the emitted text to differ). -/
theorem C5_generateScript_deterministic (c1 c2 : ScriptBuilder.Config) (h : c1 = c2) :
    ScriptBuilder.generateScript c1 = ScriptBuilder.generateScript c2 := by
  rw [h]

/-- C5 witness: determinism at the specification's end-to-end example
configuration. -/
theorem C5_generateScript_deterministic_witness :
    ScriptBuilder.generateScript cfgBanner = ScriptBuilder.generateScript cfgBanner :=
  C5_generateScript_deterministic cfgBanner cfgBanner rfl

/-- C8 counterexample: the duplicate-execution marker of the cited engine
is not derived from the action kind — two configurations with different
action kinds (`modify-text` and `custom`) both receive the very same
guard fragment, which installs the fixed global
`window.__scriptExecuted`. -/
theorem C8_counterexample :
    cfgDup1.actionType ≠ cfgDup2.actionType
    ∧ ScriptBuilder.indent ScriptBuilder.templates.preventDuplicates 1
        ∈ ScriptBuilder.scriptLines cfgDup1
    ∧ ScriptBuilder.indent ScriptBuilder.templates.preventDuplicates 1
        ∈ ScriptBuilder.scriptLines cfgDup2
    ∧ "        window.__scriptExecuted = true;"
        ∈ jsSplit '\n' (ScriptBuilder.indent ScriptBuilder.templates.preventDuplicates 1) := by
  refine ⟨by decide, ?_, ?_, by decide⟩ <;>
    simp [ScriptBuilder.scriptLines, cfgDup1, cfgDup2]

/-- C8 (amended): when `preventDuplicates` is enabled the generated script
contains the guard fragment installing the fixed global marker
`window.__scriptExecuted` (the same name for every configuration,
regardless of action kind), and re-running the script in the same page
context is a no-op: the first run sets the marker and reaches the body,
a run with the marker set returns without reaching the body. -/
theorem C8_preventDuplicates_marker (cfg : ScriptBuilder.Config)
    (h : cfg.features.preventDuplicates = true) :
    ScriptBuilder.indent ScriptBuilder.templates.preventDuplicates 1
        ∈ ScriptBuilder.scriptLines cfg
    ∧ ScriptBuilder.runDuplicateGuard false = (true, true)
    ∧ (ScriptBuilder.runDuplicateGuard (ScriptBuilder.runDuplicateGuard false).1).2 = false := by
  refine ⟨?_, rfl, rfl⟩
  simp [ScriptBuilder.scriptLines, h]

/-- C8 witness: the amended marker property at a concrete configuration. -/
theorem C8_preventDuplicates_marker_witness :
    cfgDup1.features.preventDuplicates = true
    ∧ (ScriptBuilder.indent ScriptBuilder.templates.preventDuplicates 1
        ∈ ScriptBuilder.scriptLines cfgDup1
      ∧ ScriptBuilder.runDuplicateGuard false = (true, true)
      ∧ (ScriptBuilder.runDuplicateGuard (ScriptBuilder.runDuplicateGuard false).1).2 = false) :=
  ⟨rfl, C8_preventDuplicates_marker cfgDup1 rfl⟩

/-- C7 counterexample: the restore path never restores the selector kind
(no tab switch, no write to the XPath field), so a configuration saved
with `selectorType = "xpath"` gathers back as `"css"` when the CSS tab is
active — the round trip is not lossless for the selector kind. -/
theorem C7_counterexample :
    cfgXpathSaved.selectorType = "xpath"
    ∧ (AppJs.gatherConfiguration
        (AppJs.restoreScriptToEditor (fun _ => []) (fun _ => "") cfgXpathSaved uiStart)).selectorType
        = "css"
    ∧ AppJs.gatherConfiguration
        (AppJs.restoreScriptToEditor (fun _ => []) (fun _ => "") cfgXpathSaved uiStart)
        ≠ cfgXpathSaved := by
  refine ⟨rfl, by decide, by decide⟩

/-- C7 (amended): restoring a saved configuration and gathering it back is
lossless for the name, description, selector string, fallback selectors,
wait-for-element flag, action kind, action parameters and feature flags,
provided the configuration was saved from the CSS selector tab and that
tab is active (the selector kind itself is not restored), the action
parameters are exactly the inputs of the options panel for the action
kind, their ids avoid the fixed form ids, and the fallback entries are
newline-free and non-blank (as every gathered configuration satisfies). -/
theorem C7_roundtrip (optionIdsFor : String → List String) (optionDefault : String → String)
    (cfg : AppJs.GatheredConfig) (st : AppJs.UIState)
    (htab : st.activeTab = some "css")
    (hkind : cfg.selectorType = "css")
    (hkeys : optionIdsFor cfg.actionType = cfg.actionOptions.map Prod.fst)
    (hnd : (cfg.actionOptions.map Prod.fst).Nodup)
    (hdisj : ∀ k ∈ cfg.actionOptions.map Prod.fst, k ∉ AppJs.baseInputIds)
    (hfb : ∀ s ∈ cfg.fallbackSelectors, '\n' ∉ s.data ∧ jsTruthy (jsTrim s) = true) :
    (AppJs.gatherConfiguration
        (AppJs.restoreScriptToEditor optionIdsFor optionDefault cfg st)).scriptName
        = cfg.scriptName
    ∧ (AppJs.gatherConfiguration
        (AppJs.restoreScriptToEditor optionIdsFor optionDefault cfg st)).scriptDescription
        = cfg.scriptDescription
    ∧ (AppJs.gatherConfiguration
        (AppJs.restoreScriptToEditor optionIdsFor optionDefault cfg st)).targetSelector
        = cfg.targetSelector
    ∧ (AppJs.gatherConfiguration
        (AppJs.restoreScriptToEditor optionIdsFor optionDefault cfg st)).selectorType
        = cfg.selectorType
    ∧ (AppJs.gatherConfiguration
        (AppJs.restoreScriptToEditor optionIdsFor optionDefault cfg st)).fallbackSelectors
        = cfg.fallbackSelectors
    ∧ (AppJs.gatherConfiguration
        (AppJs.restoreScriptToEditor optionIdsFor optionDefault cfg st)).waitForElement
        = cfg.waitForElement
    ∧ (AppJs.gatherConfiguration
        (AppJs.restoreScriptToEditor optionIdsFor optionDefault cfg st)).actionType
        = cfg.actionType
    ∧ (AppJs.gatherConfiguration
        (AppJs.restoreScriptToEditor optionIdsFor optionDefault cfg st)).actionOptions
        = cfg.actionOptions
    ∧ (AppJs.gatherConfiguration
        (AppJs.restoreScriptToEditor optionIdsFor optionDefault cfg st)).features
        = cfg.features := by
  have hTab : (AppJs.restoreScriptToEditor optionIdsFor optionDefault cfg st).activeTab
      = some "css" := by rw [AppJs.restore_activeTab, htab]
  have hchecks : (AppJs.restoreScriptToEditor optionIdsFor optionDefault cfg st).checks
      = (AppJs.restoreFeatures cfg.features
          (AppJs.setCheckboxValue st "waitForElement" cfg.waitForElement)).checks :=
    AppJs.restore_checks _ _ _ _
  have readName : (AppJs.restoreScriptToEditor optionIdsFor optionDefault cfg st).inputs
      "scriptName" = cfg.scriptName := by
    rw [AppJs.restore_inputs_base _ _ _ _ _ hkeys hdisj (by simp [AppJs.baseInputIds]),
      AppJs.setInput_inputs_ne _ _ _ _ (by decide),
      AppJs.setInput_inputs_ne _ _ _ _ (by decide),
      AppJs.setInput_inputs_ne _ _ _ _ (by decide),
      AppJs.setInput_inputs_ne _ _ _ _ (by decide),
      AppJs.setInput_inputs_self _ _ _ (by simp [AppJs.inputExists, AppJs.baseInputIds])]
  have readDesc : (AppJs.restoreScriptToEditor optionIdsFor optionDefault cfg st).inputs
      "scriptDescription" = cfg.scriptDescription := by
    rw [AppJs.restore_inputs_base _ _ _ _ _ hkeys hdisj (by simp [AppJs.baseInputIds]),
      AppJs.setInput_inputs_ne _ _ _ _ (by decide),
      AppJs.setInput_inputs_ne _ _ _ _ (by decide),
      AppJs.setInput_inputs_ne _ _ _ _ (by decide),
      AppJs.setInput_inputs_self _ _ _ (by
        simp [AppJs.inputExists_setInput, AppJs.inputExists, AppJs.baseInputIds])]
  have readTarget : (AppJs.restoreScriptToEditor optionIdsFor optionDefault cfg st).inputs
      "targetSelector" = cfg.targetSelector := by
    rw [AppJs.restore_inputs_base _ _ _ _ _ hkeys hdisj (by simp [AppJs.baseInputIds]),
      AppJs.setInput_inputs_ne _ _ _ _ (by decide),
      AppJs.setInput_inputs_ne _ _ _ _ (by decide),
      AppJs.setInput_inputs_self _ _ _ (by
        simp [AppJs.inputExists_setInput, AppJs.inputExists, AppJs.baseInputIds])]
  have readFallback : (AppJs.restoreScriptToEditor optionIdsFor optionDefault cfg st).inputs
      "fallbackSelectors" = jsJoin '\n' cfg.fallbackSelectors := by
    rw [AppJs.restore_inputs_base _ _ _ _ _ hkeys hdisj (by simp [AppJs.baseInputIds]),
      AppJs.setInput_inputs_ne _ _ _ _ (by decide),
      AppJs.setInput_inputs_self _ _ _ (by
        simp [AppJs.inputExists_setInput, AppJs.inputExists, AppJs.baseInputIds])]
  have readAction : (AppJs.restoreScriptToEditor optionIdsFor optionDefault cfg st).inputs
      "actionType" = cfg.actionType := by
    rw [AppJs.restore_inputs_base _ _ _ _ _ hkeys hdisj (by simp [AppJs.baseInputIds]),
      AppJs.setInput_inputs_self _ _ _ (by
        simp [AppJs.inputExists_setInput, AppJs.inputExists, AppJs.baseInputIds])]
  have hwait : (AppJs.restoreScriptToEditor optionIdsFor optionDefault cfg st).checks
      "waitForElement" = cfg.waitForElement := by
    rw [hchecks, AppJs.restoreFeatures_checks]
    simp [AppJs.setCheckboxValue]
  refine ⟨?_, ?_, ?_, ?_, ?_, ?_, ?_, ?_, ?_⟩
  · simp [AppJs.gatherConfiguration, AppJs.getInputValue, AppJs.inputExists,
      AppJs.baseInputIds, readName]
  · simp [AppJs.gatherConfiguration, AppJs.getInputValue, AppJs.inputExists,
      AppJs.baseInputIds, readDesc]
  · simp [AppJs.gatherConfiguration, hTab, AppJs.getInputValue, AppJs.inputExists,
      AppJs.baseInputIds, readTarget]
  · simp [AppJs.gatherConfiguration, hTab, hkind]
  · have hsplit : (jsSplit '\n' (jsJoin '\n' cfg.fallbackSelectors)).filter
        (fun s => jsTruthy (jsTrim s)) = cfg.fallbackSelectors := by
      cases hl : cfg.fallbackSelectors with
      | nil => decide
      | cons a l =>
        rw [jsSplit_jsJoin (by simp) (fun s hs => (hfb s (hl ▸ hs)).1)]
        exact List.filter_eq_self.mpr (fun s hs => (hfb s (hl ▸ hs)).2)
    simp only [AppJs.gatherConfiguration, AppJs.getInputValue, readFallback]
    rw [if_pos (by simp [AppJs.inputExists, AppJs.baseInputIds])]
    exact hsplit
  · simp [AppJs.gatherConfiguration, AppJs.getCheckboxValue, hwait]
  · simp [AppJs.gatherConfiguration, AppJs.getInputValue, AppJs.inputExists,
      AppJs.baseInputIds, readAction]
  · exact AppJs.restore_actionOptions _ _ _ _ hkeys hnd
  · simp [AppJs.gatherConfiguration, AppJs.getCheckboxValue, hchecks,
      AppJs.restoreFeatures_checks, AppJs.setCheckboxValue]

/-- C7 witness: the amended round trip at a concrete configuration with a
`modify-text` action, one option, two fallback selectors and two enabled
features. -/
theorem C7_roundtrip_witness :
    (AppJs.gatherConfiguration (AppJs.restoreScriptToEditor
        (fun a => if a = "modify-text" then ["newText"] else []) (fun _ => "")
        { scriptName := "My Script", scriptDescription := "d",
          targetSelector := ".price", selectorType := "css",
          fallbackSelectors := ["#a", ".b"], waitForElement := true,
          actionType := "modify-text", actionOptions := [("newText", "Hello")],
          features := { domReady := true, errorHandling := true } }
        uiStart)).actionOptions = [("newText", "Hello")]
    ∧ (AppJs.gatherConfiguration (AppJs.restoreScriptToEditor
        (fun a => if a = "modify-text" then ["newText"] else []) (fun _ => "")
        { scriptName := "My Script", scriptDescription := "d",
          targetSelector := ".price", selectorType := "css",
          fallbackSelectors := ["#a", ".b"], waitForElement := true,
          actionType := "modify-text", actionOptions := [("newText", "Hello")],
          features := { domReady := true, errorHandling := true } }
        uiStart)).fallbackSelectors = ["#a", ".b"] := by
  have h := C7_roundtrip (fun a => if a = "modify-text" then ["newText"] else [])
    (fun _ => "")
    { scriptName := "My Script", scriptDescription := "d",
      targetSelector := ".price", selectorType := "css",
      fallbackSelectors := ["#a", ".b"], waitForElement := true,
      actionType := "modify-text", actionOptions := [("newText", "Hello")],
      features := { domReady := true, errorHandling := true } }
    uiStart rfl rfl (by decide) (by decide) (by decide) (by decide)
  exact ⟨h.2.2.2.2.2.2.2.1, h.2.2.2.2.1⟩
